import Mathlib

/-!
Verification development for the JMAP request-processing core of
cyrus-imapd (src/imap/http_jmap.c).  The C data structures and functions
are embedded shallowly: jansson JSON values become an inductive type,
parsed vCards become lists of property entries, and the mailbox /
CardDAV stores become explicit state records threaded through the
handler functions.  Machine integers in the relevant code paths are
small counters and sizes, modelled as Nat; C functions returning error
codes are modelled with Option or with an explicit result code.
-/

set_option autoImplicit false

namespace Jmap

/-- JSON values (model of jansson json_t).  Objects keep insertion order
(the code loads requests with JSON_PRESERVE_ORDER).  Numbers are
modelled as integers; no claim settled here depends on non-integral
numeric values (the only numeric field, x-importance, is never compared
by value in a claim). -/
inductive JVal where
  | null
  | bool (b : Bool)
  | num (n : Int)
  | str (s : String)
  | arr (xs : List JVal)
  | obj (kvs : List (String × JVal))
  deriving Repr

/-- Lookup in a JSON object association list (first binding wins, as in
jansson, which keeps one binding per key). -/
def jlookup (k : String) : List (String × JVal) → Option JVal
  | [] => none
  | (k0, v) :: rest => if k0 = k then some v else jlookup k rest

/-- json_object_get: NULL (none) on a non-object or a missing key. -/
def json_object_get : JVal → String → Option JVal
  | .obj kvs, k => jlookup k kvs
  | _, _ => none

/-- json_string_value: NULL (none) unless the value is a JSON string. -/
def json_string_value : JVal → Option String
  | .str s => some s
  | _ => none

/-- json_is_true: true only for the JSON true value. -/
def json_is_true : JVal → Bool
  | .bool b => b
  | _ => false

/-- json_number_value: 0 for non-numbers. -/
def json_number_value : JVal → Int
  | .num n => n
  | _ => 0

/-- json_array_size: 0 for non-arrays. -/
def json_array_size : JVal → Nat
  | .arr xs => xs.length
  | _ => 0

/-- json_array_get: NULL (none) out of range or on a non-array. -/
def json_array_get : JVal → Nat → Option JVal
  | .arr xs, i => xs.get? i
  | _, _ => none

/-- The element list of a JSON array (empty for non-arrays); used to
model loops of the form for i in 0..json_array_size. -/
def jarrElems : JVal → List JVal
  | .arr xs => xs
  | _ => []

/-- The key/value list of a JSON object (empty for non-objects); used to
model json_object_foreach. -/
def jobjKVs : JVal → List (String × JVal)
  | .obj kvs => kvs
  | _ => []

/-- json_object_set on an assoc list: replace the first binding of the
key, else append (jansson keeps one binding per key; insertion order is
preserved). -/
def jset (kvs : List (String × JVal)) (k : String) (v : JVal) :
    List (String × JVal) :=
  match kvs with
  | [] => [(k, v)]
  | (k0, v0) :: rest =>
      if k0 = k then (k0, v) :: rest else (k0, v0) :: jset rest k v

/-- Delete a key from a JSON object value (json_object_del); identity on
non-objects. -/
def json_object_del (j : JVal) (k : String) : JVal :=
  match j with
  | .obj kvs => .obj (kvs.filter (fun kv => kv.1 ≠ k))
  | other => other

/-- ASCII lower-casing of one character, as done by tolower on the
byte values the code manipulates. -/
def asciiLower (c : Char) : Char :=
  if 65 ≤ c.toNat ∧ c.toNat ≤ 90 then Char.ofNat (c.toNat + 32) else c

/-- ASCII lower-casing of a string. -/
def lowerStr (s : String) : String := ⟨s.data.map asciiLower⟩

/-- strcasecmp equality on ASCII strings. -/
def nameEq (a b : String) : Bool := lowerStr a = lowerStr b

/-- A vCard property parameter (name; value). -/
structure VParam where
  name : String
  value : String
  deriving Repr, DecidableEq

/-- A vCard property value: a single string, or a positional multivalue
array (used for N, ORG, ADR when the parser was told so via
vparse_set_multival). -/
inductive VValue where
  | single (s : String)
  | multi (vs : List String)
  deriving Repr, DecidableEq

/-- A parsed vCard property entry. -/
structure VEntry where
  name : String
  params : List VParam
  value : VValue
  deriving Repr, DecidableEq

/-- A parsed vCard: its property list in order. -/
structure VCard where
  props : List VEntry
  deriving Repr, DecidableEq

/-- vparse_get_entry with a NULL group: the first property with a
case-insensitively matching name. -/
def vparse_get_entry (card : VCard) (name : String) : Option VEntry :=
  card.props.find? (fun e => nameEq e.name name)

/-- vparse_add_entry: append a property at the end of the card. -/
def vparse_add_entry (card : VCard) (e : VEntry) : VCard :=
  ⟨card.props ++ [e]⟩

/-- vparse_delete_entries with a NULL group: remove every property with
a case-insensitively matching name. -/
def vparse_delete_entries (card : VCard) (name : String) : VCard :=
  ⟨card.props.filter (fun e => !(nameEq e.name name))⟩

/-- vparse_stringval: the single-string value of the first matching
property (NULL for a multivalued entry, which the callers never hit). -/
def vparse_stringval (card : VCard) (name : String) : Option String :=
  match vparse_get_entry card name with
  | some e =>
      match e.value with
      | .single s => some s
      | .multi _ => none
  | none => none

/-- strarray_safenth: the nth element, or the empty string out of
range. -/
def strarray_safenth (vs : List String) (n : Nat) : String := vs.getD n ""

/-- strarray_set: grow the array with empty strings as needed, then set
position n. -/
def strarray_set (vs : List String) (n : Nat) (v : String) : List String :=
  (vs ++ List.replicate (n + 1 - vs.length) "").set n v

/-- Replace the value of the first property matching the name,
preserving its parameters (the mutation inside _card_val). -/
def setFirstVal (props : List VEntry) (name v : String) : List VEntry :=
  match props with
  | [] => []
  | e :: rest =>
      if nameEq e.name name then { e with value := .single v } :: rest
      else e :: setFirstVal rest name v

/-- _card_val (http_jmap.c lines 709-716): set the value of the first
matching property, adding the property if absent. -/
def _card_val (card : VCard) (name v : String) : VCard :=
  match vparse_get_entry card name with
  | some _ => ⟨setFirstVal card.props name v⟩
  | none => ⟨card.props ++ [⟨name, [], .single v⟩]⟩

/-- Set position idx of the multivalue array of the first property
matching the name. -/
def setFirstMulti (props : List VEntry) (name : String) (idx : Nat)
    (v : String) : List VEntry :=
  match props with
  | [] => []
  | e :: rest =>
      if nameEq e.name name then
        let vs := match e.value with | .multi vs => vs | .single _ => []
        { e with value := .multi (strarray_set vs idx v) } :: rest
      else e :: setFirstMulti rest name idx v

/-- Model of _card_multi (http_jmap.c lines 1903-1913) followed by
strarray_set on the returned entry, as done at its call sites: the
positional write into N or ORG.  A freshly created entry starts with an
empty multivalue array.  (N and ORG are always parsed as multivalue in
the paths reaching this code.) -/
def cardMultiSet (card : VCard) (name : String) (idx : Nat) (v : String) :
    VCard :=
  match vparse_get_entry card name with
  | some _ => ⟨setFirstMulti card.props name idx v⟩
  | none => ⟨card.props ++ [⟨name, [], .multi (strarray_set [] idx v)⟩]⟩

/-- The decimal digit characters, as produced by printf on a digit. -/
def digitChar : Nat → Char
  | 0 => '0'
  | 1 => '1'
  | 2 => '2'
  | 3 => '3'
  | 4 => '4'
  | 5 => '5'
  | 6 => '6'
  | 7 => '7'
  | 8 => '8'
  | _ => '9'

/-- The string produced by the format %04d-%02d-%02d for y up to 9999
and m, d up to 99 (the ranges reaching the two printf calls in
_date_to_card and _date_to_jmap). -/
def fmtDate (y m d : Nat) : String :=
  ⟨[digitChar (y / 1000 % 10), digitChar (y / 100 % 10),
    digitChar (y / 10 % 10), digitChar (y % 10), '-',
    digitChar (m / 10 % 10), digitChar (m % 10), '-',
    digitChar (d / 10 % 10), digitChar (d % 10)]⟩

/-- A decimal digit byte, as tested character by character in
_parse_date. -/
def isDig (c : Char) : Prop := 48 ≤ c.toNat ∧ c.toNat ≤ 57

instance (c : Char) : Decidable (isDig c) := by
  unfold isDig; infer_instance

/-- The digit extraction (c and 0xf) of _parse_date; on a byte value
this is the remainder mod 16. -/
def digVal (c : Char) : Nat := c.toNat % 16

/-- _parse_date (http_jmap.c lines 1272-1310): accept exactly the shape
dddd-dd-dd (checking the terminating NUL, i.e. the exact length) and
split it into year, month, day. -/
def _parse_date (s : String) : Option (Nat × Nat × Nat) :=
  match s.data with
  | [c0, c1, c2, c3, c4, c5, c6, c7, c8, c9] =>
      if isDig c0 ∧ isDig c1 ∧ isDig c2 ∧ isDig c3 ∧ c4 = '-' ∧
         isDig c5 ∧ isDig c6 ∧ c7 = '-' ∧ isDig c8 ∧ isDig c9 then
        some (digVal c0 * 1000 + digVal c1 * 100 + digVal c2 * 10 + digVal c3,
              digVal c5 * 10 + digVal c6,
              digVal c8 * 10 + digVal c9)
      else none
  | _ => none

/-- The parameter scan of _date_to_jmap (lines 1324-1333): each
parameter may zero out a component, matched case-insensitively. -/
def applyOmitParams (params : List VParam) (y m d : Nat) :
    Nat × Nat × Nat :=
  match params with
  | [] => (y, m, d)
  | p :: rest =>
      let y := if nameEq p.name "x-apple-omit-year" then 0 else y
      let m := if nameEq p.name "x-fm-no-month" then 0 else m
      let d := if nameEq p.name "x-fm-no-day" then 0 else d
      applyOmitParams rest y m d

/-- _date_to_jmap (http_jmap.c lines 1312-1346): read a stored date
property back into the JMAP YYYY-MM-DD form, honouring the omit
parameters and the magic year 1604; 0000-00-00 when absent or
malformed.  (A BDAY entry is never multivalued; that branch mirrors the
absent-entry outcome.) -/
def _date_to_jmap (entry : Option VEntry) : String :=
  match entry with
  | none => "0000-00-00"
  | some e =>
      match e.value with
      | .multi _ => "0000-00-00"
      | .single v =>
          match _parse_date v with
          | none => "0000-00-00"
          | some (y, m, d) =>
              if y < 1604 ∨ m > 12 ∨ d > 31 then "0000-00-00"
              else
                let (y, m, d) := applyOmitParams e.params y m d
                let y := if y = 1604 then 0 else y
                fmtDate y m d

/-- _date_to_card (http_jmap.c lines 2082-2154): validate a JMAP date
string and write it into the card under the given key, substituting the
magic 1604-01-01 components plus omit parameters for zero components,
or deleting the property outright when all three are zero.  none models
the -1 error return. -/
def _date_to_card (card : VCard) (key : String) (jval : Option JVal) :
    Option VCard :=
  match jval with
  | none => none
  | some jv =>
      match json_string_value jv with
      | none => none
      | some val =>
          match _parse_date val with
          | none => none
          | some (y, m, d) =>
              if m > 12 ∨ d > 31 then none
              else if 0 < y ∧ y < 1605 then none
              else
                let no_year := y = 0
                let y := if y = 0 then 1604 else y
                let no_month := m = 0
                let m := if m = 0 then 1 else m
                let no_day := d = 0
                let d := if d = 0 then 1 else d
                let card := vparse_delete_entries card key
                if no_year ∧ no_month ∧ no_day then some card
                else
                  let ps : List VParam :=
                    (if no_year then [⟨"x-apple-omit-year", "1604"⟩] else [])
                    ++ (if no_month then [⟨"x-fm-no-month", "1"⟩] else [])
                    ++ (if no_day then [⟨"x-fm-no-day", "1"⟩] else [])
                  some ⟨card.props ++ [⟨key, ps, .single (fmtDate y m d)⟩]⟩

theorem digitChar_toNat (k : Nat) (h : k < 10) :
    (digitChar k).toNat = 48 + k := by
  interval_cases k <;> rfl

theorem parse_fmt (y m d : Nat) (hy : y ≤ 9999) (hm : m ≤ 99)
    (hd : d ≤ 99) : _parse_date (fmtDate y m d) = some (y, m, d) := by
  have h0 : (digitChar (y / 1000 % 10)).toNat = 48 + y / 1000 % 10 :=
    digitChar_toNat _ (Nat.mod_lt _ (by norm_num))
  have h1 : (digitChar (y / 100 % 10)).toNat = 48 + y / 100 % 10 :=
    digitChar_toNat _ (Nat.mod_lt _ (by norm_num))
  have h2 : (digitChar (y / 10 % 10)).toNat = 48 + y / 10 % 10 :=
    digitChar_toNat _ (Nat.mod_lt _ (by norm_num))
  have h3 : (digitChar (y % 10)).toNat = 48 + y % 10 :=
    digitChar_toNat _ (Nat.mod_lt _ (by norm_num))
  have h5 : (digitChar (m / 10 % 10)).toNat = 48 + m / 10 % 10 :=
    digitChar_toNat _ (Nat.mod_lt _ (by norm_num))
  have h6 : (digitChar (m % 10)).toNat = 48 + m % 10 :=
    digitChar_toNat _ (Nat.mod_lt _ (by norm_num))
  have h8 : (digitChar (d / 10 % 10)).toNat = 48 + d / 10 % 10 :=
    digitChar_toNat _ (Nat.mod_lt _ (by norm_num))
  have h9 : (digitChar (d % 10)).toNat = 48 + d % 10 :=
    digitChar_toNat _ (Nat.mod_lt _ (by norm_num))
  show _parse_date ⟨_⟩ = _
  simp only [_parse_date, isDig, digVal, h0, h1, h2, h3, h5, h6, h8, h9]
  rw [if_pos]
  · congr 1
    have e0 : (48 + y / 1000 % 10) % 16 = y / 1000 % 10 := by omega
    have e1 : (48 + y / 100 % 10) % 16 = y / 100 % 10 := by omega
    have e2 : (48 + y / 10 % 10) % 16 = y / 10 % 10 := by omega
    have e3 : (48 + y % 10) % 16 = y % 10 := by omega
    have e5 : (48 + m / 10 % 10) % 16 = m / 10 % 10 := by omega
    have e6 : (48 + m % 10) % 16 = m % 10 := by omega
    have e8 : (48 + d / 10 % 10) % 16 = d / 10 % 10 := by omega
    have e9 : (48 + d % 10) % 16 = d % 10 := by omega
    rw [e0, e1, e2, e3, e5, e6, e8, e9]
    refine congrArg₂ _ (by omega) (congrArg₂ _ (by omega) (by omega))
  · refine ⟨⟨by omega, by omega⟩, ⟨by omega, by omega⟩, ⟨by omega, by omega⟩,
      ⟨by omega, by omega⟩, by trivial, ⟨by omega, by omega⟩,
      ⟨by omega, by omega⟩, by trivial, ⟨by omega, by omega⟩,
      ⟨by omega, by omega⟩⟩

/-- The accumulator of getContactUpdates / getContactGroupUpdates:
the changed and removed UID arrays. -/
structure UpdatesRock where
  changed : List String
  removed : List String
  deriving Repr, DecidableEq

/-- The outer loop of strip_spurious_deletes: walk the removed array;
whenever the current element equals some changed element, the element is
removed from the array and the index is stepped back (i--) after the
break, so processing resumes at the next element, which is exactly this
recursion. -/
def stripLoop (changed : List String) : List String → List String
  | [] => []
  | del :: rest =>
      if changed.any (fun up => del == up) then stripLoop changed rest
      else del :: stripLoop changed rest

/-- strip_spurious_deletes (http_jmap.c lines 617-636). -/
def strip_spurious_deletes (u : UpdatesRock) : UpdatesRock :=
  ⟨u.changed, stripLoop u.changed u.removed⟩

/-- getupdates_cb (lines 638-650) folded over a carddav_get_updates
enumeration, each row being (vcard uid, alive): alive rows are appended
to changed, dead rows to removed. -/
def getupdates_fold : List (String × Bool) → UpdatesRock
  | [] => ⟨[], []⟩
  | (uid, alive) :: rest =>
      let u := getupdates_fold rest
      if alive then ⟨uid :: u.changed, u.removed⟩
      else ⟨u.changed, uid :: u.removed⟩

/-- The changed/removed portion of getContactUpdates (lines 1856-1864):
enumerate the updates, partition by aliveness, strip spurious
deletes. -/
def contactUpdatesLists (rows : List (String × Bool)) : UpdatesRock :=
  strip_spurious_deletes (getupdates_fold rows)

/-- The ACL rights consulted by getMailboxes_cb.  The C rights value is
a bit mask; the rights are distinct bits, so it is modelled as one
boolean per right. -/
structure AclRights where
  lookup : Bool
  read : Bool
  insert : Bool
  deletemsg : Bool
  create : Bool
  deletembox : Bool
  deriving Repr, DecidableEq

/-- getMailboxes_cb (http_jmap.c lines 304-355): none when the mailbox
is skipped, else the mailbox entry appended to the list.  The C test
(rights AND (ACL_LOOKUP OR ACL_READ)) != (ACL_LOOKUP OR ACL_READ)
skips unless both bits are present, since the two rights are distinct
bits.  The status summary values (messages, unseen) come from the
external status_lookup. -/
def getMailboxes_cb_entry (rights : AclRights) (uniqueid mboxname : String)
    (messages unseen : Nat) : Option JVal :=
  if rights.lookup && rights.read then
    some (.obj [("id", .str uniqueid), ("name", .str mboxname),
      ("parentId", .null), ("role", .null),
      ("mayAddMessages", .bool rights.insert),
      ("mayRemoveMessages", .bool rights.deletemsg),
      ("mayCreateChild", .bool rights.create),
      ("mayDeleteMailbox", .bool rights.deletembox),
      ("totalMessages", .num (Int.ofNat messages)),
      ("unreadMessages", .num (Int.ofNat unseen))])
  else none

def CARDDAV_KIND_CONTACT : Nat := 0

def CARDDAV_KIND_GROUP : Nat := 1

/-- A message in an address-book mailbox holding one vCard, together
with the index-record state the handlers touch: its flags, its
annotations (as the importance value keyed by annotation entry), the
expunged system flag and the $dav-unbind user flag. -/
structure Msg where
  mbox : String
  imapUid : Nat
  resource : String
  card : VCard
  flags : List String
  annots : List (String × Int)
  expunged : Bool
  unbind : Bool
  deriving Repr, DecidableEq

/-- The mailbox store threaded through the handlers, together with the
fresh-UID and fresh-UUID supplies and the user modseq (bumped by every
write, and read back as the state token). -/
structure Store where
  msgs : List Msg
  nextImapUid : Nat
  uuidCtr : Nat
  modseq : Nat
  deriving Repr, DecidableEq

/-- Model of makeuuid: a supply of distinct fresh identifiers drawn from
the uuid counter of the store. -/
def mkuuid (n : Nat) : String := "uuid-" ++ Nat.repr n

/-- Modelled from the spec: mboxname_abook (declared in mboxname.h,
outside src/imap) maps an addressbookId to the address-book mailbox
name of the user. -/
def mboxname_abook (userid abookid : String) : String :=
  "user." ++ userid ++ ".#addressbooks." ++ abookid

/-- The property-name normalization performed by serializing a card
with vparse_tobuf and re-parsing it on the read side: the vCard parser
lower-cases property and parameter names.  Stored cards are kept in
this normalized form. -/
def normCard (card : VCard) : VCard :=
  ⟨card.props.map (fun e =>
    ⟨lowerStr e.name, e.params.map (fun p => ⟨lowerStr p.name, p.value⟩),
      e.value⟩)⟩

/-- Modelled from the spec: the kind recorded for a card by the CardDAV
index (carddav_db.c, outside src/imap): a card with
X-ADDRESSBOOKSERVER-KIND group is a group, anything else a contact. -/
def msgKind (m : Msg) : Nat :=
  match vparse_stringval m.card "x-addressbookserver-kind" with
  | some v =>
      if nameEq v "group" then CARDDAV_KIND_GROUP else CARDDAV_KIND_CONTACT
  | none => CARDDAV_KIND_CONTACT

/-- The vCard UID of a stored message. -/
def msgUid (m : Msg) : String := (vparse_stringval m.card "uid").getD ""

/-- carddav_store (http_jmap.c lines 718-821): stage and append a new
message whose body is the card; the resource name defaults to
(uid).vcf.  The REV stamp and the RFC-822 framing are not modelled (no
claim depends on them); the append bumps the modseq. -/
def carddav_store (st : Store) (mbox : String) (card : VCard)
    (resource : Option String) (flags : List String)
    (annots : List (String × Int)) : Store :=
  let uid := (vparse_stringval card "uid").getD ""
  let res := resource.getD (uid ++ ".vcf")
  { st with
    msgs := st.msgs ++ [⟨mbox, st.nextImapUid, res, normCard card, flags,
      annots, false, false⟩],
    nextImapUid := st.nextImapUid + 1,
    modseq := st.modseq + 1 }

/-- carddav_remove (http_jmap.c lines 823-841): expunge the record with
the given IMAP uid in the given mailbox; when isreplace is set, the
DFLAG_UNBIND ($dav-unbind) user flag is set on it in the same rewrite.
A record already expunged is left alone. -/
def carddav_remove (st : Store) (mbox : String) (olduid : Nat)
    (isreplace : Bool) : Store :=
  { st with
    msgs := st.msgs.map (fun m =>
      if m.mbox == mbox && m.imapUid == olduid && !m.expunged then
        { m with expunged := true, unbind := m.unbind || isreplace }
      else m),
    modseq := st.modseq + 1 }

/-- The isreplace argument passed by the update paths of setContacts
(line 2590) and setContactGroups (line 1164): the C expression
!newmailbox, true exactly when no move destination mailbox is open. -/
def update_isreplace (newmailbox : Option String) : Bool :=
  newmailbox.isNone

/-- The isreplace argument passed by the destroy paths (lines 1218 and
2648): the literal 0. -/
def destroy_isreplace : Bool := false

/-- Modelled from the spec (section 4.4): carddav_get_cards invokes the
callback for every live card of the given kind in the given mailbox, in
store order (carddav_db.c is outside src/imap). -/
def carddav_get_cards (st : Store) (mbox : String) (kind : Nat) :
    List Msg :=
  st.msgs.filter
    (fun m => m.mbox == mbox && !m.expunged && msgKind m == kind)

/-- The CardDAV row data consumed by the set handlers. -/
structure CarddavData where
  vcard_uid : String
  mailbox : String
  imap_uid : Nat
  resource : String
  kind : Nat
  alive : Bool
  deriving Repr, DecidableEq

/-- Modelled from the spec (sections 4.4 and 7): carddav_lookup_uid
resolves a UID to its current row, the most recently stored message
with that UID; a tombstoned row resolves with a zero imap uid, which
the set handlers treat as notFound. -/
def carddav_lookup_uid (st : Store) (uid : String) : Option CarddavData :=
  match st.msgs.reverse.find? (fun m => msgUid m == uid) with
  | none => none
  | some m =>
      some ⟨msgUid m, m.mbox, if m.expunged then 0 else m.imapUid,
        m.resource, msgKind m, !m.expunged⟩

/-- _json_object_get_string (lines 596-602): the string value of a
named member, NULL when absent or not a string. -/
def _json_object_get_string (obj : JVal) (key : String) : Option String :=
  (json_object_get obj key).bind json_string_value

/-- strarray_add_case: append unless already present
(case-insensitively). -/
def strarray_add_case (flags : List String) (v : String) : List String :=
  if flags.any (fun f => nameEq f v) then flags else flags ++ [v]

/-- strarray_remove_all_case: drop every case-insensitive match. -/
def strarray_remove_all_case (flags : List String) (v : String) :
    List String :=
  flags.filter (fun f => !(nameEq f v))

/-- strarray_find_case as a membership test. -/
def strarray_find_case (flags : List String) (v : String) : Bool :=
  flags.any (fun f => nameEq f v)

/-- Modelled from the spec: the annotation entry name used for
x-importance; the exact namespace constants (DAV_ANNOT_NS, XML_NS_CYRUS)
live in headers outside src/imap, so the entry is an opaque string
here. -/
def importanceEntry : String := "importance"

/-- Modelled from the spec: setentryatt on the annotation list (the
helpers live in annotate.c outside src/imap): bind the entry to the
value. -/
def setentryatt (annots : List (String × Int)) (entry : String) (v : Int) :
    List (String × Int) :=
  match annots with
  | [] => [(entry, v)]
  | (e, v0) :: rest =>
      if e = entry then (e, v) :: rest else (e, v0) :: setentryatt rest entry v

/-- Modelled from the spec: clearentryatt removes the binding. -/
def clearentryatt (annots : List (String × Int)) (entry : String) :
    List (String × Int) :=
  annots.filter (fun a => a.1 ≠ entry)

/-- The per-element body of _emails_to_card (lines 1915-1947). -/
def emailsLoop (card : VCard) : List JVal → Option VCard
  | [] => some card
  | item :: rest =>
      match _json_object_get_string item "type" with
      | none => none
      | some ty =>
          let label := _json_object_get_string item "label"
          match _json_object_get_string item "value" with
          | none => none
          | some value =>
              let jisDefault := json_object_get item "isDefault"
              let ty := if ty == "personal" then "home" else ty
              let ps : List VParam :=
                (if ty == "other" then [] else [⟨"type", ty⟩])
                ++ (match label with
                    | some l => [⟨"label", l⟩]
                    | none => [])
                ++ (match jisDefault with
                    | some j =>
                        if json_is_true j then [⟨"type", "pref"⟩] else []
                    | none => [])
              emailsLoop
                (vparse_add_entry card ⟨"email", ps, .single value⟩) rest

/-- _emails_to_card (lines 1915-1947): replace all EMAIL properties
from the JMAP emails array; none models the -1 error return. -/
def _emails_to_card (card : VCard) (arg : JVal) : Option VCard :=
  emailsLoop (vparse_delete_entries card "email") (jarrElems arg)

/-- The per-element body of _phones_to_card (lines 1949-1975). -/
def phonesLoop (card : VCard) : List JVal → Option VCard
  | [] => some card
  | item :: rest =>
      match _json_object_get_string item "type" with
      | none => none
      | some ty =>
          let label := _json_object_get_string item "label"
          match _json_object_get_string item "value" with
          | none => none
          | some value =>
              let ps : List VParam :=
                (if ty == "mobile" then [⟨"type", "cell"⟩]
                 else if ty == "other" then []
                 else [⟨"type", ty⟩])
                ++ (match label with
                    | some l => [⟨"label", l⟩]
                    | none => [])
              phonesLoop
                (vparse_add_entry card ⟨"tel", ps, .single value⟩) rest

/-- _phones_to_card (lines 1949-1975). -/
def _phones_to_card (card : VCard) (arg : JVal) : Option VCard :=
  phonesLoop (vparse_delete_entries card "tel") (jarrElems arg)

/-- _is_im (lines 1977-1993). -/
def _is_im (ty : String) : Bool :=
  nameEq ty "aim" || nameEq ty "facebook" || nameEq ty "gadugadu" ||
  nameEq ty "googletalk" || nameEq ty "icq" || nameEq ty "jabber" ||
  nameEq ty "msn" || nameEq ty "qq" || nameEq ty "skype" ||
  nameEq ty "twitter" || nameEq ty "yahoo"

/-- The per-element body of _online_to_card (lines 1995-2034); an
element of an unknown type adds nothing. -/
def onlineLoop (card : VCard) : List JVal → Option VCard
  | [] => some card
  | item :: rest =>
      match _json_object_get_string item "value" with
      | none => none
      | some value =>
          match _json_object_get_string item "type" with
          | none => none
          | some ty =>
              let label := _json_object_get_string item "label"
              let card :=
                if ty == "uri" then
                  vparse_add_entry card ⟨"url",
                    (match label with
                     | some l => [⟨"label", l⟩]
                     | none => []), .single value⟩
                else if ty == "username" then
                  match label with
                  | some l =>
                      if _is_im l then
                        vparse_add_entry card
                          ⟨"impp", [⟨"x-type", l⟩], .single value⟩
                      else
                        vparse_add_entry card ⟨"x-social-profile",
                          [⟨"type", l⟩, ⟨"x-user", value⟩], .single ""⟩
                  | none =>
                      vparse_add_entry card ⟨"x-social-profile",
                        [⟨"x-user", value⟩], .single ""⟩
                else card
              onlineLoop card rest

/-- _online_to_card (lines 1995-2034). -/
def _online_to_card (card : VCard) (arg : JVal) : Option VCard :=
  onlineLoop
    (vparse_delete_entries
      (vparse_delete_entries (vparse_delete_entries card "url") "impp")
      "x-social-profile")
    (jarrElems arg)

/-- The per-element body of _addresses_to_card (lines 2036-2080). -/
def addressesLoop (card : VCard) : List JVal → Option VCard
  | [] => some card
  | item :: rest =>
      match _json_object_get_string item "type" with
      | none => none
      | some ty =>
          let label := _json_object_get_string item "label"
          match _json_object_get_string item "street" with
          | none => none
          | some street =>
          match _json_object_get_string item "locality" with
          | none => none
          | some locality =>
          match _json_object_get_string item "region" with
          | none => none
          | some region =>
          match _json_object_get_string item "postcode" with
          | none => none
          | some postcode =>
          match _json_object_get_string item "country" with
          | none => none
          | some country =>
              let ps : List VParam :=
                (if ty == "other" then [] else [⟨"type", ty⟩])
                ++ (match label with
                    | some l => [⟨"label", l⟩]
                    | none => [])
              addressesLoop
                (vparse_add_entry card ⟨"adr", ps,
                  .multi ["", "", street, locality, region, postcode,
                    country]⟩) rest

/-- _addresses_to_card (lines 2036-2080). -/
def _addresses_to_card (card : VCard) (arg : JVal) : Option VCard :=
  addressesLoop (vparse_delete_entries card "adr") (jarrElems arg)

/-- _kv_to_card (lines 2156-2165). -/
def _kv_to_card (card : VCard) (key : String) (jval : Option JVal) :
    Option VCard :=
  match jval with
  | none => none
  | some jv =>
      match json_string_value jv with
      | none => none
      | some v => some (_card_val card key v)

/-- _make_fn (lines 2167-2208): rebuild FN from the nonempty N
components in the order position 3 (honorific), 1 (given), 2 (middle),
0 (family), 4 (suffix); else the nickname; else the first email value;
else No Name.  (An N entry is always multivalued where this runs.) -/
def _make_fn (card : VCard) : VCard :=
  let name : List String :=
    match vparse_get_entry card "n" with
    | some n =>
        let vs := match n.value with | .multi vs => vs | .single _ => []
        [strarray_safenth vs 3, strarray_safenth vs 1,
          strarray_safenth vs 2, strarray_safenth vs 0,
          strarray_safenth vs 4].filter (fun v => v ≠ "")
    | none => []
  let name :=
    if name = [] then
      match vparse_stringval card "nickname" with
      | some v => if v ≠ "" then [v] else []
      | none => []
    else name
  let name :=
    if name = [] then
      match vparse_stringval card "email" with
      | some v => if v ≠ "" then [v] else []
      | none => []
    else name
  let name := if name = [] then ["No Name"] else name
  _card_val card "fn" (String.intercalate " " name)

/-- The three-way result of _json_to_card: 0, 204 (no content),
-1 (error). -/
inductive J2CCode where
  | ok
  | noContent
  | err
  deriving Repr, DecidableEq

/-- The mutable state of the _json_to_card key loop. -/
structure J2CState where
  card : VCard
  flags : List String
  annots : List (String × Int)
  nameDirty : Bool
  recordDirty : Bool
  deriving Repr

/-- One iteration of the json_object_foreach dispatch in _json_to_card
(lines 2226-2353); none models the -1 return on a bad value or an
unknown key. -/
def j2cKey (st : J2CState) (key : String) (jval : JVal) :
    Option J2CState :=
  if key == "isFlagged" then
    some { st with flags :=
      if json_is_true jval then strarray_add_case st.flags "\\Flagged"
      else strarray_remove_all_case st.flags "\\Flagged" }
  else if key == "x-importance" then
    let dval := json_number_value jval
    some { st with annots :=
      if dval ≠ 0 then setentryatt st.annots importanceEntry dval
      else clearentryatt st.annots importanceEntry }
  else if key == "avatar" then
    some st
  else if key == "prefix" then
    match json_string_value jval with
    | none => none
    | some v =>
        some { st with nameDirty := true, card := cardMultiSet st.card "n" 3 v }
  else if key == "firstName" then
    match json_string_value jval with
    | none => none
    | some v =>
        some { st with nameDirty := true, card := cardMultiSet st.card "n" 1 v }
  else if key == "lastName" then
    match json_string_value jval with
    | none => none
    | some v =>
        some { st with nameDirty := true, card := cardMultiSet st.card "n" 0 v }
  else if key == "suffix" then
    match json_string_value jval with
    | none => none
    | some v =>
        some { st with nameDirty := true, card := cardMultiSet st.card "n" 4 v }
  else if key == "nickname" then
    match _kv_to_card st.card "nickname" (some jval) with
    | none => none
    | some c => some { st with card := c, recordDirty := true }
  else if key == "birthday" then
    match _date_to_card st.card "bday" (some jval) with
    | none => none
    | some c => some { st with card := c, recordDirty := true }
  else if key == "anniversary" then
    match _kv_to_card st.card "anniversary" (some jval) with
    | none => none
    | some c => some { st with card := c, recordDirty := true }
  else if key == "company" then
    match json_string_value jval with
    | none => none
    | some v =>
        some { st with
          card := cardMultiSet st.card "org" 0 v,
          recordDirty := true }
  else if key == "department" then
    match json_string_value jval with
    | none => none
    | some v =>
        some { st with
          card := cardMultiSet st.card "org" 1 v,
          recordDirty := true }
  else if key == "jobTitle" then
    match json_string_value jval with
    | none => none
    | some v =>
        some { st with
          card := cardMultiSet st.card "org" 2 v,
          recordDirty := true }
  else if key == "emails" then
    match _emails_to_card st.card jval with
    | none => none
    | some c => some { st with card := c, recordDirty := true }
  else if key == "phones" then
    match _phones_to_card st.card jval with
    | none => none
    | some c => some { st with card := c, recordDirty := true }
  else if key == "online" then
    match _online_to_card st.card jval with
    | none => none
    | some c => some { st with card := c, recordDirty := true }
  else if key == "addresses" then
    match _addresses_to_card st.card jval with
    | none => none
    | some c => some { st with card := c, recordDirty := true }
  else if key == "notes" then
    match _kv_to_card st.card "note" (some jval) with
    | none => none
    | some c => some { st with card := c, recordDirty := true }
  else
    none

/-- The key loop of _json_to_card. -/
def j2cLoop (st : J2CState) : List (String × JVal) → Option J2CState
  | [] => some st
  | (key, jval) :: rest =>
      match j2cKey st key jval with
      | none => none
      | some st2 => j2cLoop st2 rest

/-- _json_to_card (http_jmap.c lines 2210-2364).  An absent FN is
created up front (marking the name dirty); after the key loop a dirty
name recomputes FN via _make_fn; a run that dirtied nothing reports
204 (no content).  On error the partially mutated card is discarded by
every caller, so the pre-loop state is returned with the err code. -/
def _json_to_card (card : VCard) (arg : JVal) (flags : List String)
    (annots : List (String × Int)) :
    J2CCode × VCard × List String × List (String × Int) :=
  let start : VCard × Bool :=
    match vparse_get_entry card "fn" with
    | some _ => (card, false)
    | none => (vparse_add_entry card ⟨"fn", [], .single "No Name"⟩, true)
  match j2cLoop ⟨start.1, flags, annots, start.2, false⟩ (jobjKVs arg) with
  | none => (.err, start.1, flags, annots)
  | some st =>
      if st.nameDirty then (.ok, _make_fn st.card, st.flags, st.annots)
      else if st.recordDirty then (.ok, st.card, st.flags, st.annots)
      else (.noContent, st.card, st.flags, st.annots)

/-- The batch-scoped idmap from creation keys to minted UUIDs. -/
def Idmap := List (String × String)

/-- hash_lookup on the idmap. -/
def idmapLookup (idmap : List (String × String)) (k : String) :
    Option String :=
  (idmap.find? (fun p => p.1 == k)).map (fun p => p.2)

/-- hash_insert on the idmap: bind (replacing an existing binding). -/
def idmapInsert (idmap : List (String × String)) (k v : String) :
    List (String × String) :=
  match idmap with
  | [] => [(k, v)]
  | (k0, v0) :: rest =>
      if k0 == k then (k0, v) :: rest else (k0, v0) :: idmapInsert rest k v

/-- _resolveid (http_jmap.c lines 843-848): map a creation key through
the idmap, passing unknown ids through unchanged. -/
def _resolveid (idmap : List (String × String)) (id : String) : String :=
  match idmapLookup idmap id with
  | some newid => newid
  | none => id

/-- The member loop of _add_group_entries (lines 850-870): non-string
members are skipped, ids are resolved through the idmap. -/
def groupEntriesLoop (idmap : List (String × String)) (card : VCard) :
    List JVal → VCard
  | [] => card
  | item :: rest =>
      match json_string_value item with
      | none => groupEntriesLoop idmap card rest
      | some s =>
          groupEntriesLoop idmap
            (vparse_add_entry card ⟨"X-ADDRESSBOOKSERVER-MEMBER", [],
              .single ("urn:uuid:" ++ _resolveid idmap s)⟩) rest

/-- _add_group_entries (lines 850-870).  Its C return value is always
0, so the invalidContactId branches guarding it are dead code. -/
def _add_group_entries (idmap : List (String × String)) (card : VCard)
    (members : JVal) : VCard :=
  groupEntriesLoop idmap
    (vparse_delete_entries card "X-ADDRESSBOOKSERVER-MEMBER")
    (jarrElems members)

/-- The inner member loop of _add_othergroup_entries (lines 872-897):
a non-string member aborts with -1. -/
def othergroupInner (idmap : List (String × String)) (card : VCard)
    (key : String) : List JVal → Option VCard
  | [] => some card
  | item :: rest =>
      match json_string_value item with
      | none => none
      | some s =>
          othergroupInner idmap
            (vparse_add_entry card ⟨"X-FM-OTHERACCOUNT-MEMBER",
              [⟨"userid", key⟩],
              .single ("urn:uuid:" ++ _resolveid idmap s)⟩) key rest

/-- The account loop of _add_othergroup_entries. -/
def othergroupLoop (idmap : List (String × String)) (card : VCard) :
    List (String × JVal) → Option VCard
  | [] => some card
  | (key, arr) :: rest =>
      match othergroupInner idmap card key (jarrElems arr) with
      | none => none
      | some card2 => othergroupLoop idmap card2 rest

/-- _add_othergroup_entries (lines 872-897). -/
def _add_othergroup_entries (idmap : List (String × String)) (card : VCard)
    (members : JVal) : Option VCard :=
  othergroupLoop idmap
    (vparse_delete_entries card "X-FM-OTHERACCOUNT-MEMBER")
    (jobjKVs members)

/-- The invocation context handed to each handler (struct jmap_req):
the authenticated user, the state token read for this invocation, the
client tag, the args object and the idmap. -/
structure Ctx where
  userid : String
  state : String
  tag : String
  args : JVal
  idmap : List (String × String)

/-- A response triple [name, payload, tag]. -/
structure Response where
  name : String
  payload : JVal
  tag : String
  deriving Repr

/-- An error response [error, \x7btype: code\x7d, tag]. -/
def errorResponse (code tag : String) : Response :=
  ⟨"error", .obj [("type", .str code)], tag⟩

/-- A per-item error object \x7btype: code\x7d. -/
def itemError (code : String) : JVal := .obj [("type", .str code)]

/-- The accumulator of the setContactGroups create loop. -/
structure GCreateAcc where
  created : List (String × JVal)
  notCreated : List (String × JVal)
  st : Store
  idmap : List (String × String)

/-- The create loop of setContactGroups (lines 922-1025).  A uuid is
minted for every item before validation; missing name is
missingParameters, a non-string name invalidArguments, a non-string
foreign member invalidContactId; the addressbookId defaults to Default;
on success the card is stored and the creation key is bound in the
idmap. -/
def groupCreateLoop (userid : String) (acc : GCreateAcc) :
    List (String × JVal) → GCreateAcc
  | [] => acc
  | (key, arg) :: rest =>
      let uid := mkuuid acc.st.uuidCtr
      let st := { acc.st with uuidCtr := acc.st.uuidCtr + 1 }
      match json_object_get arg "name" with
      | none =>
          groupCreateLoop userid
            { acc with
              st := st,
              notCreated := acc.notCreated
                ++ [(key, itemError "missingParameters")] } rest
      | some jname =>
          match json_string_value jname with
          | none =>
              groupCreateLoop userid
                { acc with
                  st := st,
                  notCreated := acc.notCreated
                    ++ [(key, itemError "invalidArguments")] } rest
          | some name =>
              let card : VCard := ⟨[⟨"VERSION", [], .single "3.0"⟩,
                ⟨"FN", [], .single name⟩, ⟨"UID", [], .single uid⟩,
                ⟨"X-ADDRESSBOOKSERVER-KIND", [], .single "group"⟩]⟩
              let card :=
                match json_object_get arg "contactIds" with
                | some members => _add_group_entries acc.idmap card members
                | none => card
              match (match json_object_get arg "otherAccountContactIds" with
                     | some others =>
                         _add_othergroup_entries acc.idmap card others
                     | none => some card) with
              | none =>
                  groupCreateLoop userid
                    { acc with
                      st := st,
                      notCreated := acc.notCreated
                        ++ [(key, itemError "invalidContactId")] } rest
              | some card2 =>
                  let abook :=
                    ((json_object_get arg "addressbookId").bind
                      json_string_value).getD "Default"
                  let mboxname := mboxname_abook userid abook
                  let st := carddav_store st mboxname card2 none [] []
                  groupCreateLoop userid
                    { created := acc.created
                        ++ [(key, .obj [("id", .str uid)])],
                      notCreated := acc.notCreated,
                      st := st,
                      idmap := idmapInsert acc.idmap key uid } rest

/-- mailbox_find_index_record plus mailbox_map_record: locate the
message with the given IMAP uid in the given mailbox. -/
def findMsg (st : Store) (mbox : String) (imapUid : Nat) : Option Msg :=
  st.msgs.find? (fun m => m.mbox == mbox && m.imapUid == imapUid)

/-- The accumulator of the group/contact update loops.  fatal marks the
goto done paths (an unreadable index record), on which the handler
aborts without appending its set response. -/
structure UpdateAcc where
  updated : List String
  notUpdated : List (String × JVal)
  st : Store
  fatal : Bool

/-- The update loop of setContactGroups (lines 1027-1180): resolve the
uid (alive group with a record, else notFound), open a move destination
when addressbookId names another mailbox, apply name/member changes,
store the new revision and expunge the old one with isreplace set
exactly when there was no move. -/
def groupUpdateLoop (userid : String) (idmap : List (String × String))
    (acc : UpdateAcc) : List (String × JVal) → UpdateAcc
  | [] => acc
  | (uid, arg) :: rest =>
      if acc.fatal then acc
      else
      match carddav_lookup_uid acc.st uid with
      | none =>
          groupUpdateLoop userid idmap { acc with
            notUpdated := acc.notUpdated ++ [(uid, itemError "notFound")] }
            rest
      | some cdata =>
          if cdata.imap_uid = 0 ∨ cdata.kind ≠ CARDDAV_KIND_GROUP then
            groupUpdateLoop userid idmap { acc with
              notUpdated := acc.notUpdated
                ++ [(uid, itemError "notFound")] } rest
          else
            let newmailbox : Option String :=
              match _json_object_get_string arg "addressbookId" with
              | some a =>
                  let mboxname := mboxname_abook userid a
                  if mboxname ≠ cdata.mailbox then some mboxname else none
              | none => none
            match findMsg acc.st cdata.mailbox cdata.imap_uid with
            | none => { acc with fatal := true }
            | some msg =>
                let card := msg.card
                match (match json_object_get arg "name" with
                       | some namep =>
                           (json_string_value namep).map
                             (fun nm => _card_val card "FN" nm)
                       | none => some card) with
                | none =>
                    groupUpdateLoop userid idmap { acc with
                      notUpdated := acc.notUpdated
                        ++ [(uid, itemError "invalidArguments")] } rest
                | some card =>
                    let card :=
                      match json_object_get arg "contactIds" with
                      | some members =>
                          _add_group_entries idmap card members
                      | none => card
                    match (match json_object_get arg
                             "otherAccountContactIds" with
                           | some others =>
                               _add_othergroup_entries idmap card others
                           | none => some card) with
                    | none =>
                        groupUpdateLoop userid idmap { acc with
                          notUpdated := acc.notUpdated
                            ++ [(uid, itemError "invalidContactId")] } rest
                    | some card =>
                        let dest :=
                          match newmailbox with
                          | some nm => nm
                          | none => cdata.mailbox
                        let st := carddav_store acc.st dest card
                          (some cdata.resource) [] []
                        let st := carddav_remove st cdata.mailbox
                          cdata.imap_uid (update_isreplace newmailbox)
                        groupUpdateLoop userid idmap { acc with
                          updated := acc.updated ++ [uid], st := st } rest

/-- The accumulator of the destroy loops. -/
structure DestroyAcc where
  destroyed : List String
  notDestroyed : List (String × JVal)
  st : Store

/-- The destroy loop of setContactGroups (lines 1182-1235) for a given
expected kind.  A non-string uid hits
json_object_set_new(notDestroyed, NULL, err), which fails on the NULL
key, so nothing is recorded for it (flagged in the spec design
notes). -/
def destroyLoop (kind : Nat) (acc : DestroyAcc) : List JVal → DestroyAcc
  | [] => acc
  | item :: rest =>
      match json_string_value item with
      | none => destroyLoop kind acc rest
      | some uid =>
          match carddav_lookup_uid acc.st uid with
          | none =>
              destroyLoop kind { acc with
                notDestroyed := acc.notDestroyed
                  ++ [(uid, itemError "notFound")] } rest
          | some cdata =>
              if cdata.imap_uid = 0 ∨ cdata.kind ≠ kind then
                destroyLoop kind { acc with
                  notDestroyed := acc.notDestroyed
                    ++ [(uid, itemError "notFound")] } rest
              else
                destroyLoop kind { acc with
                  destroyed := acc.destroyed ++ [uid],
                  st := carddav_remove acc.st cdata.mailbox cdata.imap_uid
                    destroy_isreplace } rest

/-- Append a field to the set response object only when nonempty
(json_object_size / json_array_size guards before json_object_set). -/
def setField (kvs : List (String × JVal)) (k : String) (v : List (String × JVal)) :
    List (String × JVal) :=
  if v.isEmpty then kvs else kvs ++ [(k, .obj v)]

/-- Append an array field to the set response object only when
nonempty. -/
def setFieldArr (kvs : List (String × JVal)) (k : String) (v : List String) :
    List (String × JVal) :=
  if v.isEmpty then kvs else kvs ++ [(k, .arr (v.map .str))]

/-- The body of setContactGroups after the ifInState gate (lines
915-1255): create, update and destroy phases, then the re-read modseq
as newState and the contactGroupsSet response.  On a fatal store error
the handler aborts with no response (goto done). -/
def setContactGroupsBody (ctx : Ctx) (st : Store) :
    List Response × Store × List (String × String) × Int :=
  let set0 : List (String × JVal) :=
    [("oldState", .str ctx.state), ("accountId", .str ctx.userid)]
  let cRes :=
    match json_object_get ctx.args "create" with
    | some create =>
        groupCreateLoop ctx.userid ⟨[], [], st, ctx.idmap⟩ (jobjKVs create)
    | none => ⟨[], [], st, ctx.idmap⟩
  let set1 := setField (setField set0 "created" cRes.created)
    "notCreated" cRes.notCreated
  let uRes :=
    match json_object_get ctx.args "update" with
    | some update =>
        groupUpdateLoop ctx.userid cRes.idmap ⟨[], [], cRes.st, false⟩
          (jobjKVs update)
    | none => ⟨[], [], cRes.st, false⟩
  if uRes.fatal then ([], uRes.st, cRes.idmap, -1)
  else
    let set2 := setField (setFieldArr set1 "updated" uRes.updated)
      "notUpdated" uRes.notUpdated
    let dRes :=
      match json_object_get ctx.args "destroy" with
      | some destroy =>
          destroyLoop CARDDAV_KIND_GROUP ⟨[], [], uRes.st⟩
            (jarrElems destroy)
      | none => ⟨[], [], uRes.st⟩
    let set3 := setField (setFieldArr set2 "destroyed" dRes.destroyed)
      "notDestroyed" dRes.notDestroyed
    let set4 := set3 ++ [("newState", .str (Nat.repr dRes.st.modseq))]
    ([⟨"contactGroupsSet", .obj set4, ctx.tag⟩], dRes.st, cRes.idmap, 0)

/-- setContactGroups (http_jmap.c lines 899-1262).  The ifInState gate
(lines 905-914): when the args carry ifInState and its string value is
absent (non-string) or differs from the current state, the handler
appends only the stateMismatch error and returns 0 without touching
the store. -/
def setContactGroups (ctx : Ctx) (st : Store) :
    List Response × Store × List (String × String) × Int :=
  match json_object_get ctx.args "ifInState" with
  | some jcheckState =>
      match json_string_value jcheckState with
      | none => ([errorResponse "stateMismatch" ctx.tag], st, ctx.idmap, 0)
      | some checkState =>
          if checkState ≠ ctx.state then
            ([errorResponse "stateMismatch" ctx.tag], st, ctx.idmap, 0)
          else setContactGroupsBody ctx st
  | none => setContactGroupsBody ctx st

/-- The accumulator of the setContacts create loop. -/
structure CCreateAcc where
  created : List (String × JVal)
  notCreated : List (String × JVal)
  st : Store
  idmap : List (String × String)

/-- The create loop of setContacts (lines 2396-2456): mint a uuid,
resolve and delete addressbookId, build a fresh VERSION/UID card, run
the contact mapper (any nonzero mapper result is invalidParameters),
store with the mapped flags and annotations, record created and bind
the creation key. -/
def contactCreateLoop (userid : String) (acc : CCreateAcc) :
    List (String × JVal) → CCreateAcc
  | [] => acc
  | (key, arg) :: rest =>
      let uid := mkuuid acc.st.uuidCtr
      let st := { acc.st with uuidCtr := acc.st.uuidCtr + 1 }
      let abook :=
        ((json_object_get arg "addressbookId").bind
          json_string_value).getD "Default"
      let mboxname := mboxname_abook userid abook
      let arg := json_object_del arg "addressbookId"
      let card : VCard :=
        ⟨[⟨"VERSION", [], .single "3.0"⟩, ⟨"UID", [], .single uid⟩]⟩
      match _json_to_card card arg [] [] with
      | (.ok, card2, flags2, annots2) =>
          let st := carddav_store st mboxname card2 none flags2 annots2
          contactCreateLoop userid
            { created := acc.created ++ [(key, .obj [("id", .str uid)])],
              notCreated := acc.notCreated,
              st := st,
              idmap := idmapInsert acc.idmap key uid } rest
      | _ =>
          contactCreateLoop userid
            { acc with
              st := st,
              notCreated := acc.notCreated
                ++ [(key, itemError "invalidParameters")] } rest

/-- The flag/annotation rewrite of the no-content fast path of the
setContacts update loop (lines 2552-2570): toggle the Flagged system
flag on the existing record from the mapped flags and store the mapped
annotations, bumping the modseq via the record rewrite. -/
def touchRecord (st : Store) (mbox : String) (imapUid : Nat)
    (flags2 : List String) (annots2 : List (String × Int)) : Store :=
  { st with
    msgs := st.msgs.map (fun m =>
      if m.mbox == mbox && m.imapUid == imapUid then
        { m with
          flags :=
            if strarray_find_case flags2 "\\Flagged" then
              strarray_add_case m.flags "\\Flagged"
            else strarray_remove_all_case m.flags "\\Flagged",
          annots := annots2 }
      else m),
    modseq := st.modseq + 1 }

/-- The update loop of setContacts (lines 2466-2611): resolve the uid
(live contact, else notFound), open a move destination when
addressbookId names another mailbox (deleting the key), extract the
record flags and annotations, run the contact mapper on the stored
card; no content without a move takes the flag/annotation fast path; a
mapper error is invalidParameters; otherwise store the new revision
(into the move destination if any) and expunge the old record with
isreplace = !newmailbox. -/
def contactUpdateLoop (userid : String) (acc : UpdateAcc) :
    List (String × JVal) → UpdateAcc
  | [] => acc
  | (uid, arg) :: rest =>
      if acc.fatal then acc
      else
      match carddav_lookup_uid acc.st uid with
      | none =>
          contactUpdateLoop userid { acc with
            notUpdated := acc.notUpdated ++ [(uid, itemError "notFound")] }
            rest
      | some cdata =>
          if cdata.imap_uid = 0 ∨ cdata.kind ≠ CARDDAV_KIND_CONTACT then
            contactUpdateLoop userid { acc with
              notUpdated := acc.notUpdated
                ++ [(uid, itemError "notFound")] } rest
          else
            let newmailbox : Option String :=
              match _json_object_get_string arg "addressbookId" with
              | some a =>
                  let mboxname := mboxname_abook userid a
                  if mboxname ≠ cdata.mailbox then some mboxname else none
              | none => none
            let arg :=
              match _json_object_get_string arg "addressbookId" with
              | some _ => json_object_del arg "addressbookId"
              | none => arg
            match findMsg acc.st cdata.mailbox cdata.imap_uid with
            | none => { acc with fatal := true }
            | some msg =>
                match _json_to_card msg.card arg msg.flags msg.annots with
                | (.noContent, _, flags2, annots2) =>
                    match newmailbox with
                    | none =>
                        let st := touchRecord acc.st cdata.mailbox
                          cdata.imap_uid flags2 annots2
                        contactUpdateLoop userid { acc with
                          updated := acc.updated ++ [uid], st := st } rest
                    | some nm =>
                        let st := carddav_store acc.st nm msg.card
                          (some cdata.resource) flags2 annots2
                        let st := carddav_remove st cdata.mailbox
                          cdata.imap_uid (update_isreplace (some nm))
                        contactUpdateLoop userid { acc with
                          updated := acc.updated ++ [uid], st := st } rest
                | (.err, _, _, _) =>
                    contactUpdateLoop userid { acc with
                      notUpdated := acc.notUpdated
                        ++ [(uid, itemError "invalidParameters")] } rest
                | (.ok, card2, flags2, annots2) =>
                    let dest :=
                      match newmailbox with
                      | some nm => nm
                      | none => cdata.mailbox
                    let st := carddav_store acc.st dest card2
                      (some cdata.resource) flags2 annots2
                    let st := carddav_remove st cdata.mailbox
                      cdata.imap_uid (update_isreplace newmailbox)
                    contactUpdateLoop userid { acc with
                      updated := acc.updated ++ [uid], st := st } rest

/-- The body of setContacts after the ifInState gate (lines
2383-2684): create, update and destroy phases, then the re-read modseq
as newState and the contactsSet response. -/
def setContactsBody (ctx : Ctx) (st : Store) :
    List Response × Store × List (String × String) × Int :=
  let set0 : List (String × JVal) :=
    [("oldState", .str ctx.state), ("accountId", .str ctx.userid)]
  let cRes :=
    match json_object_get ctx.args "create" with
    | some create =>
        contactCreateLoop ctx.userid ⟨[], [], st, ctx.idmap⟩
          (jobjKVs create)
    | none => ⟨[], [], st, ctx.idmap⟩
  let set1 := setField (setField set0 "created" cRes.created)
    "notCreated" cRes.notCreated
  let uRes :=
    match json_object_get ctx.args "update" with
    | some update =>
        contactUpdateLoop ctx.userid ⟨[], [], cRes.st, false⟩
          (jobjKVs update)
    | none => ⟨[], [], cRes.st, false⟩
  if uRes.fatal then ([], uRes.st, cRes.idmap, -1)
  else
    let set2 := setField (setFieldArr set1 "updated" uRes.updated)
      "notUpdated" uRes.notUpdated
    let dRes :=
      match json_object_get ctx.args "destroy" with
      | some destroy =>
          destroyLoop CARDDAV_KIND_CONTACT ⟨[], [], uRes.st⟩
            (jarrElems destroy)
      | none => ⟨[], [], uRes.st⟩
    let set3 := setField (setFieldArr set2 "destroyed" dRes.destroyed)
      "notDestroyed" dRes.notDestroyed
    let set4 := set3 ++ [("newState", .str (Nat.repr dRes.st.modseq))]
    ([⟨"contactsSet", .obj set4, ctx.tag⟩], dRes.st, cRes.idmap, 0)

/-- setContacts (http_jmap.c lines 2366-2691), with the same ifInState
gate as setContactGroups (lines 2372-2382). -/
def setContacts (ctx : Ctx) (st : Store) :
    List Response × Store × List (String × String) × Int :=
  match json_object_get ctx.args "ifInState" with
  | some jcheckState =>
      match json_string_value jcheckState with
      | none => ([errorResponse "stateMismatch" ctx.tag], st, ctx.idmap, 0)
      | some checkState =>
          if checkState ≠ ctx.state then
            ([errorResponse "stateMismatch" ctx.tag], st, ctx.idmap, 0)
          else setContactsBody ctx st
  | none => setContactsBody ctx st

/-- The want/seen hash of the get handlers: 1 marks wanted, 2 marks
seen (hash_insert replaces the mark). -/
def needMark (need : List (String × Nat)) (k : String) (v : Nat) :
    List (String × Nat) :=
  match need with
  | [] => [(k, v)]
  | (k0, v0) :: rest =>
      if k0 == k then (k0, v) :: rest else (k0, v0) :: needMark rest k v

/-- hash_lookup on the want/seen hash. -/
def needLookup (need : List (String × Nat)) (k : String) : Option Nat :=
  (need.find? (fun p => p.1 == k)).map (fun p => p.2)

/-- The ids loop of getContacts / getContactGroups (lines 539-555 and
1773-1789): build the want hash, aborting the handler (-1, none here)
on a non-string id. -/
def needInitLoop (acc : List (String × Nat)) :
    List JVal → Option (List (String × Nat))
  | [] => some acc
  | item :: rest =>
      match json_string_value item with
      | none => none
      | some id => needInitLoop (needMark acc id 1) rest

/-- The properties loop of getContacts (lines 1791-1807): collect the
requested property names, aborting the handler on a non-string
entry. -/
def propsInitLoop (acc : List String) : List JVal → Option (List String)
  | [] => some acc
  | item :: rest =>
      match json_string_value item with
      | none => none
      | some id => propsInitLoop (acc ++ [id]) rest

/-- _wantprop (lines 1264-1269): with no properties table every
property is wanted. -/
def _wantprop (props : Option (List String)) (name : String) : Bool :=
  match props with
  | none => true
  | some l => l.contains name

/-- _add_notfound folded over the hash (lines 509-515): the keys still
marked 1 (wanted, never seen). -/
def needNotFound (nd : List (String × Nat)) : List String :=
  (nd.filter (fun p => p.2 == 1)).map (fun p => p.1)

/-- The character suffix after the last dot (strrchr(mboxname, .)+1). -/
def lastDotComponent (s : String) : String :=
  ⟨((s.data.reverse).takeWhile (fun c => c ≠ '.')).reverse⟩

/-- Drop the first n characters (the pointer offset
mailbox + mboxoffset on these ASCII names). -/
def strDropChars (s : String) (n : Nat) : String := ⟨s.data.drop n⟩

/-- strncmp(propval, "urn:uuid:", 9) == 0. -/
def startsWithUrnUuid (s : String) : Bool :=
  s.data.take 9 == "urn:uuid:".data

/-- vparse_get_param: the value of the named parameter. -/
def paramValue (e : VEntry) (name : String) : Option String :=
  (e.params.find? (fun p => nameEq p.name name)).map (fun p => p.value)

/-- Modelled from the spec (section 6): _add_xhref (lines 387-408)
computes /dav/addressbooks/user/(user)/(abook)/(resource); the
domain-elision logic depends on configuration outside src/imap, so the
model uses the userid directly. -/
def xhrefVal (userid mboxname resource : String) : String :=
  "/dav/addressbooks/user/" ++ userid ++ "/" ++ lastDotComponent mboxname
    ++ "/" ++ resource

/-- The accumulator of the getgroups_cb property scan. -/
structure GroupScanAcc where
  obj : List (String × JVal)
  contactids : List JVal
  otherids : List (String × JVal)

/-- Append a member uuid under an account key of otherAccountContactIds
(lines 490-499), creating the array on first use. -/
def otherIdsAdd (otherids : List (String × JVal)) (userid uuid : String) :
    List (String × JVal) :=
  match jlookup userid otherids with
  | some (.arr xs) => jset otherids userid (.arr (xs ++ [.str uuid]))
  | some _ => otherids
  | none => otherids ++ [(userid, .arr [.str uuid])]

/-- The property scan of getgroups_cb (lines 474-500).  Group cards are
parsed without multivalue support, so every entry is single-valued; the
parsed property names are lower case.  The C dereferences the userid
parameter of a foreign member unconditionally; cards written by this
module always carry it, and a missing one is modelled as the empty
account key. -/
def groupScan (acc : GroupScanAcc) : List VEntry → GroupScanAcc
  | [] => acc
  | e :: rest =>
      match e.value with
      | .multi _ => groupScan acc rest
      | .single propval =>
          let acc :=
            if e.name == "fn" then
              { acc with obj := jset acc.obj "name" (.str propval) }
            else if e.name == "x-addressbookserver-member" then
              if startsWithUrnUuid propval then
                { acc with contactids :=
                    acc.contactids ++ [.str (strDropChars propval 9)] }
              else acc
            else if e.name == "x-fm-otheraccount-member" then
              if startsWithUrnUuid propval then
                { acc with otherids :=
                    (otherIdsAdd acc.otherids ((paramValue e "userid").getD "")
                      (strDropChars propval 9)) }
              else acc
            else acc
          groupScan acc rest

/-- The JSON object getgroups_cb (lines 419-507) builds for one group
card: id, addressbookId (the mailbox name past the offset), x-href,
then the scanned name and member lists. -/
def getgroups_entry (userid : String) (mboxoffset : Nat) (m : Msg) :
    JVal :=
  let obj0 : List (String × JVal) :=
    [("id", .str (msgUid m)),
     ("addressbookId", .str (strDropChars m.mbox mboxoffset)),
     ("x-href", .str (xhrefVal userid m.mbox m.resource))]
  let acc := groupScan ⟨obj0, [], []⟩ m.card.props
  .obj (jset (jset acc.obj "contactIds" (.arr acc.contactids))
    "otherAccountContactIds" (.obj acc.otherids))

/-- The enumeration state of the get handlers: the want/seen hash (when
ids was given) and the output list. -/
structure GetAcc where
  need : Option (List (String × Nat))
  array : List JVal

/-- The callback filtering common to getgroups_cb and getcontacts_cb
(lines 425-431, 1378-1384): with a want hash, skip cards not in the
hash and mark matched ones seen (2); build the entry for the kept
cards. -/
def getCardsFold (entry : Msg → JVal) (acc : GetAcc) :
    List Msg → GetAcc
  | [] => acc
  | m :: rest =>
      match acc.need with
      | some nd =>
          match needLookup nd (msgUid m) with
          | none => getCardsFold entry acc rest
          | some _ =>
              getCardsFold entry
                ⟨some (needMark nd (msgUid m) 2),
                  acc.array ++ [entry m]⟩ rest
      | none =>
          getCardsFold entry ⟨none, acc.array ++ [entry m]⟩ rest

/-- The notFound field of a get response (lines 565-580, 1817-1832):
null without an ids argument; with one, the still-wanted ids, or null
when every id was seen. -/
def notFoundField (need : Option (List (String × Nat))) : JVal :=
  match need with
  | some nd =>
      let nf := needNotFound nd
      if nf.isEmpty then .null else .arr (nf.map .str)
  | none => .null

/-- getContactGroups (http_jmap.c lines 517-593).  The requested ids
are inserted into the want hash as given: they are not resolved
through the idmap.  A non-string id aborts the handler with -1 and no
response. -/
def getContactGroups (ctx : Ctx) (st : Store) : List Response × Int :=
  let abook :=
    ((json_object_get ctx.args "addressbookId").bind
      json_string_value).getD "Default"
  let abookname := mboxname_abook ctx.userid abook
  let mboxoffset := abookname.length - abook.length
  let needRes : Option (Option (List (String × Nat))) :=
    match json_object_get ctx.args "ids" with
    | some want =>
        match needInitLoop [] (jarrElems want) with
        | none => none
        | some nd => some (some nd)
    | none => some none
  match needRes with
  | none => ([], -1)
  | some need =>
      let rows := carddav_get_cards st abookname CARDDAV_KIND_GROUP
      let acc := getCardsFold (getgroups_entry ctx.userid mboxoffset)
        ⟨need, []⟩ rows
      let payload : List (String × JVal) :=
        [("accountId", .str ctx.userid), ("state", .str ctx.state),
         ("list", .arr acc.array), ("notFound", notFoundField acc.need)]
      ([⟨"contactGroups", .obj payload, ctx.tag⟩], 0)

/-- _servicetype (lines 1348-1369): canonical labels for known IM
services, the input passed through otherwise. -/
def _servicetype (ty : String) : String :=
  if nameEq ty "aim" then "AIM"
  else if nameEq ty "facebook" then "Facebook"
  else if nameEq ty "flickr" then "Flickr"
  else if nameEq ty "gadugadu" then "GaduGadu"
  else if nameEq ty "github" then "GitHub"
  else if nameEq ty "googletalk" then "GoogleTalk"
  else if nameEq ty "icq" then "ICQ"
  else if nameEq ty "jabber" then "Jabber"
  else if nameEq ty "linkedin" then "LinkedIn"
  else if nameEq ty "msn" then "MSN"
  else if nameEq ty "myspace" then "MySpace"
  else if nameEq ty "qq" then "QQ"
  else if nameEq ty "skype" then "Skype"
  else if nameEq ty "twitter" then "Twitter"
  else if nameEq ty "yahoo" then "Yahoo"
  else ty

/-- The multivalue array of the first matching property
(vparse_multival); the callers substitute an empty array when
absent. -/
def cardMultival (card : VCard) (name : String) : List String :=
  match vparse_get_entry card name with
  | some e =>
      match e.value with
      | .multi vs => vs
      | .single _ => []
  | none => []

/-- The single value of an entry (entry->v.value); parsed EMAIL, TEL,
URL, IMPP and X-SOCIAL-PROFILE entries are single-valued. -/
def entrySingle (e : VEntry) : String :=
  match e.value with
  | .single s => s
  | .multi _ => ""

/-- The type/label parameter fold of the ADR scan (lines 1504-1525). -/
def adrTypeFold (params : List VParam) (ty : String)
    (label : Option String) : String × Option String :=
  match params with
  | [] => (ty, label)
  | p :: rest =>
      if nameEq p.name "type" then
        let ty :=
          if nameEq p.value "home" then "home"
          else if nameEq p.value "work" then "work"
          else if nameEq p.value "billing" then "billing"
          else if nameEq p.value "postal" then "postal"
          else ty
        adrTypeFold rest ty label
      else if nameEq p.name "label" then adrTypeFold rest ty (some p.value)
      else adrTypeFold rest ty label

/-- The street join of the ADR scan (lines 1529-1543): the pointers
compared by the inner conditions are never NULL, so a nonempty pobox or
extended part is always followed by a newline. -/
def adrStreet (pobox extended street : String) : String :=
  (if pobox ≠ "" then pobox ++ "\n" else "")
    ++ (if extended ≠ "" then extended ++ "\n" else "") ++ street

/-- One ADR entry as a JMAP address object (lines 1497-1556). -/
def adrItem (e : VEntry) : JVal :=
  let a := match e.value with | .multi vs => vs | .single _ => []
  let tl := adrTypeFold e.params "other" none
  .obj ([("type", .str tl.1)]
    ++ (match tl.2 with | some l => [("label", .str l)] | none => [])
    ++ [("street", .str (adrStreet (strarray_safenth a 0)
          (strarray_safenth a 1) (strarray_safenth a 2))),
        ("locality", .str (strarray_safenth a 3)),
        ("region", .str (strarray_safenth a 4)),
        ("postcode", .str (strarray_safenth a 5)),
        ("country", .str (strarray_safenth a 6))])

/-- The addresses scan (lines 1493-1560). -/
def adrScan (props : List VEntry) : List JVal :=
  (props.filter (fun e => nameEq e.name "adr")).map adrItem

/-- The type/label/pref parameter fold of the EMAIL scan (lines
1572-1591); the third component records whether a pref parameter was
seen. -/
def emailTypeFold (params : List VParam) (ty : String)
    (label : Option String) (pref : Bool) : String × Option String × Bool :=
  match params with
  | [] => (ty, label, pref)
  | p :: rest =>
      if nameEq p.name "type" then
        if nameEq p.value "home" then
          emailTypeFold rest "personal" label pref
        else if nameEq p.value "work" then
          emailTypeFold rest "work" label pref
        else if nameEq p.value "pref" then
          emailTypeFold rest ty label true
        else emailTypeFold rest ty label pref
      else if nameEq p.name "label" then
        emailTypeFold rest ty (some p.value) pref
      else emailTypeFold rest ty label pref

/-- The EMAIL scan (lines 1563-1611) before the isDefault pass: the
items in order and the index of the first pref-marked entry. -/
def emailScan (i : Nat) (defIdx : Option Nat) (items : List JVal) :
    List VEntry → List JVal × Option Nat
  | [] => (items, defIdx)
  | e :: rest =>
      if nameEq e.name "email" then
        let tlp := emailTypeFold e.params "other" none false
        let defIdx2 :=
          if tlp.2.2 then match defIdx with
            | none => some i
            | some j => some j
          else defIdx
        emailScan (i + 1) defIdx2
          (items ++ [.obj ([("type", .str tlp.1)]
            ++ (match tlp.2.1 with
                | some l => [("label", .str l)]
                | none => [])
            ++ [("value", .str (entrySingle e))])]) rest
      else emailScan i defIdx items rest

/-- The isDefault pass of the EMAIL scan (lines 1601-1608): element 0
is the default when no entry was pref-marked. -/
def emailsWithDefault (items : List JVal) (defIdx : Option Nat) :
    List JVal :=
  let d := defIdx.getD 0
  items.enum.map (fun p =>
    match p.2 with
    | .obj kvs => .obj (kvs ++ [("isDefault", .bool (p.1 == d))])
    | other => other)

/-- The type/label parameter fold of the TEL scan (lines 1621-1648). -/
def phoneTypeFold (params : List VParam) (ty : String)
    (label : Option String) : String × Option String :=
  match params with
  | [] => (ty, label)
  | p :: rest =>
      if nameEq p.name "type" then
        let ty :=
          if nameEq p.value "home" then "home"
          else if nameEq p.value "work" then "work"
          else if nameEq p.value "cell" then "mobile"
          else if nameEq p.value "mobile" then "mobile"
          else if nameEq p.value "fax" then "fax"
          else if nameEq p.value "pager" then "pager"
          else ty
        phoneTypeFold rest ty label
      else if nameEq p.name "label" then phoneTypeFold rest ty (some p.value)
      else phoneTypeFold rest ty label

/-- The TEL scan (lines 1614-1658). -/
def phoneScan (props : List VEntry) : List JVal :=
  (props.filter (fun e => nameEq e.name "tel")).map (fun e =>
    let tl := phoneTypeFold e.params "other" none
    .obj ([("type", .str tl.1)]
      ++ (match tl.2 with | some l => [("label", .str l)] | none => [])
      ++ [("value", .str (entrySingle e))]))

/-- The label parameter fold of the URL scan (lines 1669-1675). -/
def urlLabelFold (params : List VParam) (label : Option String) :
    Option String :=
  match params with
  | [] => label
  | p :: rest =>
      if nameEq p.name "label" then urlLabelFold rest (some p.value)
      else urlLabelFold rest label

/-- The x-service-type parameter fold of the IMPP scan (lines
1683-1688). -/
def imppLabelFold (params : List VParam) (label : Option String) :
    Option String :=
  match params with
  | [] => label
  | p :: rest =>
      if nameEq p.name "x-service-type" then
        imppLabelFold rest (some (_servicetype p.value))
      else imppLabelFold rest label

/-- The type and x-user parameter fold of the X-SOCIAL-PROFILE scan
(lines 1696-1706). -/
def socialFold (params : List VParam) (label : Option String)
    (value : Option String) : Option String × Option String :=
  match params with
  | [] => (label, value)
  | p :: rest =>
      let label :=
        if nameEq p.name "type" then some (_servicetype p.value) else label
      let value := if nameEq p.name "x-user" then some p.value else value
      socialFold rest label value

/-- The online scan (lines 1661-1716): URL, IMPP and X-SOCIAL-PROFILE
entries in property order. -/
def onlineScan (props : List VEntry) : List JVal :=
  props.foldl (fun acc e =>
    if nameEq e.name "url" then
      acc ++ [.obj ([("type", .str "uri")]
        ++ (match urlLabelFold e.params none with
            | some l => [("label", .str l)]
            | none => [])
        ++ [("value", .str (entrySingle e))])]
    else if nameEq e.name "impp" then
      acc ++ [.obj ([("type", .str "username")]
        ++ (match imppLabelFold e.params none with
            | some l => [("label", .str l)]
            | none => [])
        ++ [("value", .str (entrySingle e))])]
    else if nameEq e.name "x-social-profile" then
      let lv := socialFold e.params none none
      acc ++ [.obj ([("type", .str "username")]
        ++ (match lv.1 with | some l => [("label", .str l)] | none => [])
        ++ [("value", .str ((lv.2).getD (entrySingle e)))])]
    else acc) []

set_option maxHeartbeats 1000000 in
/-- The JSON object getcontacts_cb (lines 1371-1749) builds for one
contact card, honouring the properties filter.  isFlagged comes from
the Flagged flag of the record, x-importance from the annotation. -/
def getcontacts_entry (userid : String) (mboxoffset : Nat)
    (props : Option (List String)) (m : Msg) : JVal :=
  let n := cardMultival m.card "n"
  let org := cardMultival m.card "org"
  let obj : List (String × JVal) :=
    [("id", .str (msgUid m)),
     ("addressbookId", .str (strDropChars m.mbox mboxoffset))]
  let obj := if _wantprop props "isFlagged" then
      obj ++ [("isFlagged", .bool (strarray_find_case m.flags "\\Flagged"))]
    else obj
  let obj := if _wantprop props "x-href" then
      obj ++ [("x-href", .str (xhrefVal userid m.mbox m.resource))]
    else obj
  let obj := if _wantprop props "x-importance" then
      obj ++ [("x-importance",
        .num (((m.annots.find? (fun a => a.1 = importanceEntry)).map
          (fun a => a.2)).getD 0))]
    else obj
  let obj := if _wantprop props "lastName" then
      let family := strarray_safenth n 0
      let sfx := strarray_safenth n 4
      obj ++ [("lastName",
        .str (if sfx ≠ "" then family ++ " " ++ sfx else family))]
    else obj
  let obj := if _wantprop props "firstName" then
      let given := strarray_safenth n 1
      let middle := strarray_safenth n 2
      obj ++ [("firstName",
        .str (if middle ≠ "" then given ++ " " ++ middle else given))]
    else obj
  let obj := if _wantprop props "prefix" then
      obj ++ [("prefix", .str (strarray_safenth n 3))]
    else obj
  let obj := if _wantprop props "company" then
      obj ++ [("company", .str (strarray_safenth org 0))]
    else obj
  let obj := if _wantprop props "department" then
      obj ++ [("department", .str (strarray_safenth org 1))]
    else obj
  let obj := if _wantprop props "addresses" then
      obj ++ [("addresses", .arr (adrScan m.card.props))]
    else obj
  let obj := if _wantprop props "emails" then
      let sc := emailScan 0 none [] m.card.props
      obj ++ [("emails", .arr (emailsWithDefault sc.1 sc.2))]
    else obj
  let obj := if _wantprop props "phones" then
      obj ++ [("phones", .arr (phoneScan m.card.props))]
    else obj
  let obj := if _wantprop props "online" then
      obj ++ [("online", .arr (onlineScan m.card.props))]
    else obj
  let obj := if _wantprop props "nickname" then
      obj ++ [("nickname",
        .str ((vparse_stringval m.card "nickname").getD ""))]
    else obj
  let obj := if _wantprop props "birthday" then
      obj ++ [("birthday",
        .str (_date_to_jmap (vparse_get_entry m.card "bday")))]
    else obj
  let obj := if _wantprop props "notes" then
      obj ++ [("notes", .str ((vparse_stringval m.card "note").getD ""))]
    else obj
  let obj := if _wantprop props "x-hasPhoto" then
      obj ++ [("x-hasPhoto",
        .bool (vparse_stringval m.card "photo").isSome)]
    else obj
  .obj obj

/-- getContacts (http_jmap.c lines 1751-1845): like getContactGroups,
plus the properties filter; a non-string id or property aborts the
handler with -1 and no response. -/
def getContacts (ctx : Ctx) (st : Store) : List Response × Int :=
  let abook :=
    ((json_object_get ctx.args "addressbookId").bind
      json_string_value).getD "Default"
  let abookname := mboxname_abook ctx.userid abook
  let mboxoffset := abookname.length - abook.length
  let needRes : Option (Option (List (String × Nat))) :=
    match json_object_get ctx.args "ids" with
    | some want =>
        match needInitLoop [] (jarrElems want) with
        | none => none
        | some nd => some (some nd)
    | none => some none
  match needRes with
  | none => ([], -1)
  | some need =>
      let propsRes : Option (Option (List String)) :=
        match json_object_get ctx.args "properties" with
        | some properties =>
            match propsInitLoop [] (jarrElems properties) with
            | none => none
            | some ps => some (some ps)
        | none => some none
      match propsRes with
      | none => ([], -1)
      | some props =>
          let rows := carddav_get_cards st abookname CARDDAV_KIND_CONTACT
          let acc := getCardsFold
            (getcontacts_entry ctx.userid mboxoffset props) ⟨need, []⟩ rows
          let payload : List (String × JVal) :=
            [("accountId", .str ctx.userid), ("state", .str ctx.state),
             ("list", .arr acc.array),
             ("notFound", notFoundField acc.need)]
          ([⟨"contacts", .obj payload, ctx.tag⟩], 0)

/-- The state token read before each invocation (meth_post lines
249-253 and the newState re-reads): the decimal rendering of the
modseq. -/
def invocationState (st : Store) : String := Nat.repr st.modseq

/-- The payload of the first appended response (an inspection helper
for theorem statements). -/
def payloadGet (rs : List Response) (k : String) : Option JVal :=
  match rs with
  | r :: _ => json_object_get r.payload k
  | [] => none

/-- The argument keys the contact mapper dispatch accepts (the
documented JMAP contact keys plus avatar, which lines 2249-2251 accept
as a no-op). -/
def allowedContactKeys : List String :=
  ["isFlagged", "x-importance", "avatar", "prefix", "firstName",
   "lastName", "suffix", "nickname", "birthday", "anniversary",
   "company", "department", "jobTitle", "emails", "phones", "online",
   "addresses", "notes"]

/-- The FN formula as the claim states it: the space-join of the
non-empty components [honorific, given, middle, family, suffix] of N
(positions 3, 1, 2, 0, 4); if that join is empty, the nickname; else
the first email value; else No Name.  This definition follows the
claim text, to be compared with _make_fn. -/
def claimFn (card : VCard) : String :=
  let vs := cardMultival card "n"
  let comps := [strarray_safenth vs 3, strarray_safenth vs 1,
    strarray_safenth vs 2, strarray_safenth vs 0,
    strarray_safenth vs 4].filter (fun v => v ≠ "")
  if comps ≠ [] then String.intercalate " " comps
  else
    let nick := (vparse_stringval card "nickname").getD ""
    if nick ≠ "" then nick
    else
      let em := (vparse_stringval card "email").getD ""
      if em ≠ "" then em else "No Name"

/-- Stated from the claim: the requested ids never seen during the
enumeration, i.e. the keys of the want hash carried as vCard UID by no
enumerated card. -/
def missingIds (nd : List (String × Nat)) (rows : List Msg) :
    List String :=
  (nd.filter (fun p => !rows.any (fun m => msgUid m == p.1))).map
    (fun p => p.1)

/-- Stated from the claim: the notFound value it describes — null when
no requested id is missing, the (non-empty) array of the missing ids
otherwise. -/
def notFoundOf (nd : List (String × Nat)) (rows : List Msg) : JVal :=
  if (missingIds nd rows).isEmpty then .null
  else .arr ((missingIds nd rows).map .str)

/-- The addressbookId argument with its Default fallback (lines
525-528 and 1759-1762). -/
def abookOf (args : JVal) : String :=
  ((json_object_get args "addressbookId").bind json_string_value).getD
    "Default"

/-- A concrete one-card message used by witnesses. -/
def mWit : Msg :=
  ⟨"user.t.#addressbooks.Default", 1, "u.vcf", ⟨[]⟩, [], [], false, false⟩

/-- A concrete one-card store used by witnesses. -/
def stWit : Store := ⟨[mWit], 2, 0, 5⟩

theorem find?_append_of_none {α : Type} {p : α → Bool} {l1 : List α}
    (l2 : List α) (h : l1.find? p = none) :
    (l1 ++ l2).find? p = l2.find? p := by
  induction l1 with
  | nil => simp
  | cons a l ih =>
      cases hpa : p a with
      | true => simp [List.find?_cons, hpa] at h
      | false =>
          simp only [List.cons_append, List.find?_cons, hpa]
          simp only [List.find?_cons, hpa] at h
          exact ih h

theorem find?_filter_not_none (props : List VEntry) (k : String) :
    (props.filter (fun e => !(nameEq e.name k))).find?
      (fun e => nameEq e.name k) = none := by
  induction props with
  | nil => rfl
  | cons e rest ih =>
      cases h : nameEq e.name k with
      | true => simp [List.filter_cons, h, ih]
      | false => simp [List.filter_cons, List.find?_cons, h, ih]

theorem vparse_get_entry_delete (card : VCard) (k : String) :
    vparse_get_entry (vparse_delete_entries card k) k = none := by
  unfold vparse_get_entry vparse_delete_entries
  exact find?_filter_not_none card.props k

theorem vparse_get_entry_delete_add (card : VCard) (k : String) (e : VEntry)
    (h : nameEq e.name k = true) :
    vparse_get_entry ⟨(vparse_delete_entries card k).props ++ [e]⟩ k
      = some e := by
  unfold vparse_get_entry
  rw [show (⟨(vparse_delete_entries card k).props ++ [e]⟩ : VCard).props
        = (vparse_delete_entries card k).props ++ [e] from rfl]
  rw [find?_append_of_none [e] (vparse_get_entry_delete card k)]
  simp [List.find?_cons, h]

theorem nameEq_oy_oy :
    nameEq "x-apple-omit-year" "x-apple-omit-year" = true := by decide

theorem nameEq_oy_nm :
    nameEq "x-apple-omit-year" "x-fm-no-month" = false := by decide

theorem nameEq_oy_nd :
    nameEq "x-apple-omit-year" "x-fm-no-day" = false := by decide

theorem nameEq_nm_oy :
    nameEq "x-fm-no-month" "x-apple-omit-year" = false := by decide

theorem nameEq_nm_nm :
    nameEq "x-fm-no-month" "x-fm-no-month" = true := by decide

theorem nameEq_nm_nd :
    nameEq "x-fm-no-month" "x-fm-no-day" = false := by decide

theorem nameEq_nd_oy :
    nameEq "x-fm-no-day" "x-apple-omit-year" = false := by decide

theorem nameEq_nd_nm :
    nameEq "x-fm-no-day" "x-fm-no-month" = false := by decide

theorem nameEq_nd_nd :
    nameEq "x-fm-no-day" "x-fm-no-day" = true := by decide

/-- applyOmitParams on the empty parameter list. -/
theorem app_nil (y m d : Nat) : applyOmitParams [] y m d = (y, m, d) := rfl

theorem app_oy (y m d : Nat) :
    applyOmitParams [⟨"x-apple-omit-year", "1604"⟩] y m d = (0, m, d) := by
  simp [applyOmitParams, nameEq_oy_oy, nameEq_oy_nm, nameEq_oy_nd]

theorem app_nm (y m d : Nat) :
    applyOmitParams [⟨"x-fm-no-month", "1"⟩] y m d = (y, 0, d) := by
  simp [applyOmitParams, nameEq_nm_oy, nameEq_nm_nm, nameEq_nm_nd]

theorem app_nd (y m d : Nat) :
    applyOmitParams [⟨"x-fm-no-day", "1"⟩] y m d = (y, m, 0) := by
  simp [applyOmitParams, nameEq_nd_oy, nameEq_nd_nm, nameEq_nd_nd]

theorem app_oy_nm (y m d : Nat) :
    applyOmitParams [⟨"x-apple-omit-year", "1604"⟩, ⟨"x-fm-no-month", "1"⟩]
      y m d = (0, 0, d) := by
  simp [applyOmitParams, nameEq_oy_oy, nameEq_oy_nm, nameEq_oy_nd,
    nameEq_nm_oy, nameEq_nm_nm, nameEq_nm_nd]

theorem app_oy_nd (y m d : Nat) :
    applyOmitParams [⟨"x-apple-omit-year", "1604"⟩, ⟨"x-fm-no-day", "1"⟩]
      y m d = (0, m, 0) := by
  simp [applyOmitParams, nameEq_oy_oy, nameEq_oy_nm, nameEq_oy_nd,
    nameEq_nd_oy, nameEq_nd_nm, nameEq_nd_nd]

theorem app_nm_nd (y m d : Nat) :
    applyOmitParams [⟨"x-fm-no-month", "1"⟩, ⟨"x-fm-no-day", "1"⟩]
      y m d = (y, 0, 0) := by
  simp [applyOmitParams, nameEq_nm_oy, nameEq_nm_nm, nameEq_nm_nd,
    nameEq_nd_oy, nameEq_nd_nm, nameEq_nd_nd]

theorem nameEq_bday : nameEq "bday" "bday" = true := by decide

/-- Evaluation of _date_to_jmap on a well-formed stored date entry. -/
theorem readback_core (y2 m2 d2 Y M D y m d : Nat) (ps : List VParam)
    (h1 : y2 ≤ 9999) (h2 : m2 ≤ 99) (h3 : d2 ≤ 99)
    (hg : ¬ (y2 < 1604 ∨ m2 > 12 ∨ d2 > 31))
    (happ : applyOmitParams ps y2 m2 d2 = (Y, M, D))
    (hY : (if Y = 1604 then 0 else Y) = y) (hM : M = m) (hD : D = d) :
    _date_to_jmap (some ⟨"bday", ps, .single (fmtDate y2 m2 d2)⟩)
      = fmtDate y m d := by
  simp only [_date_to_jmap, parse_fmt y2 m2 d2 h1 h2 h3]
  rw [if_neg hg]
  simp only [happ]
  rw [hY, hM, hD]

/-- Reading back the entry that _date_to_card wrote for a non-omitted
date reproduces the original components. -/
theorem date_readback (y m d : Nat)
    (hy : y = 0 ∨ (1605 ≤ y ∧ y ≤ 9999)) (hm : m ≤ 12) (hd : d ≤ 31)
    (hall : ¬ (y = 0 ∧ m = 0 ∧ d = 0)) :
    _date_to_jmap (some ⟨"bday",
        (if y = 0 then [⟨"x-apple-omit-year", "1604"⟩] else [])
        ++ (if m = 0 then [⟨"x-fm-no-month", "1"⟩] else [])
        ++ (if d = 0 then [⟨"x-fm-no-day", "1"⟩] else []),
        .single (fmtDate (if y = 0 then 1604 else y)
          (if m = 0 then 1 else m) (if d = 0 then 1 else d))⟩)
      = fmtDate y m d := by
  by_cases hy0 : y = 0
  · by_cases hm0 : m = 0
    · by_cases hd0 : d = 0
      · exact absurd ⟨hy0, hm0, hd0⟩ hall
      · subst hy0; subst hm0
        simp only [if_neg hd0]
        norm_num
        exact readback_core 1604 1 d 0 0 d 0 0 d _
          (by omega) (by omega) (by omega) (by omega)
          (app_oy_nm 1604 1 d) (by norm_num) rfl rfl
    · by_cases hd0 : d = 0
      · subst hy0; subst hd0
        simp only [if_neg hm0]
        norm_num
        exact readback_core 1604 m 1 0 m 0 0 m 0 _
          (by omega) (by omega) (by omega) (by omega)
          (app_oy_nd 1604 m 1) (by norm_num) rfl rfl
      · subst hy0
        simp only [if_neg hm0, if_neg hd0]
        norm_num
        exact readback_core 1604 m d 0 m d 0 m d _
          (by omega) (by omega) (by omega) (by omega)
          (app_oy 1604 m d) (by norm_num) rfl rfl
  · by_cases hm0 : m = 0
    · by_cases hd0 : d = 0
      · subst hm0; subst hd0
        simp only [if_neg hy0]
        norm_num
        exact readback_core y 1 1 y 0 0 y 0 0 _
          (by omega) (by omega) (by omega) (by omega)
          (app_nm_nd y 1 1) (by rw [if_neg (by omega)]) rfl rfl
      · subst hm0
        simp only [if_neg hy0, if_neg hd0]
        norm_num
        exact readback_core y 1 d y 0 d y 0 d _
          (by omega) (by omega) (by omega) (by omega)
          (app_nm y 1 d) (by rw [if_neg (by omega)]) rfl rfl
    · by_cases hd0 : d = 0
      · subst hd0
        simp only [if_neg hy0, if_neg hm0]
        norm_num
        exact readback_core y m 1 y m 0 y m 0 _
          (by omega) (by omega) (by omega) (by omega)
          (app_nd y m 1) (by rw [if_neg (by omega)]) rfl rfl
      · simp only [if_neg hy0, if_neg hm0, if_neg hd0]
        norm_num
        exact readback_core y m d y m d y m d _
          (by omega) (by omega) (by omega) (by omega)
          (app_nil y m d) (by rw [if_neg (by omega)]) rfl rfl

/-- C3: for every y in 0 or 1605..9999, m in 0..12, d in 0..31, writing
the JMAP date string of (y, m, d) into a vCard with _date_to_card and
reading the resulting bday entry back with _date_to_jmap yields the same
date string (an absent entry reads as 0000-00-00). -/
theorem date_roundtrip (card : VCard) (y m d : Nat)
    (hy : y = 0 ∨ (1605 ≤ y ∧ y ≤ 9999)) (hm : m ≤ 12) (hd : d ≤ 31) :
    ∃ card2,
      _date_to_card card "bday" (some (.str (fmtDate y m d))) = some card2 ∧
      _date_to_jmap (vparse_get_entry card2 "bday") = fmtDate y m d := by
  have hy9999 : y ≤ 9999 := by omega
  have hparse := parse_fmt y m d hy9999 (by omega) (by omega)
  have hguard1 : ¬ (m > 12 ∨ d > 31) := by omega
  have hguard2 : ¬ (0 < y ∧ y < 1605) := by omega
  by_cases hall : y = 0 ∧ m = 0 ∧ d = 0
  · obtain ⟨hy0, hm0, hd0⟩ := hall
    refine ⟨vparse_delete_entries card "bday", ?_, ?_⟩
    · simp only [_date_to_card, json_string_value, hparse]
      rw [if_neg hguard1, if_neg hguard2, if_pos ⟨hy0, hm0, hd0⟩]
    · rw [vparse_get_entry_delete]
      subst hy0; subst hm0; subst hd0
      rfl
  · refine ⟨⟨(vparse_delete_entries card "bday").props ++
        [⟨"bday",
          (if y = 0 then [⟨"x-apple-omit-year", "1604"⟩] else [])
          ++ (if m = 0 then [⟨"x-fm-no-month", "1"⟩] else [])
          ++ (if d = 0 then [⟨"x-fm-no-day", "1"⟩] else []),
          .single (fmtDate (if y = 0 then 1604 else y)
            (if m = 0 then 1 else m) (if d = 0 then 1 else d))⟩]⟩, ?_, ?_⟩
    · simp only [_date_to_card, json_string_value, hparse]
      rw [if_neg hguard1, if_neg hguard2, if_neg hall]
    · rw [vparse_get_entry_delete_add card "bday"
        (VEntry.mk "bday"
          ((if y = 0 then [VParam.mk "x-apple-omit-year" "1604"] else [])
          ++ (if m = 0 then [VParam.mk "x-fm-no-month" "1"] else [])
          ++ (if d = 0 then [VParam.mk "x-fm-no-day" "1"] else []))
          (.single (fmtDate (if y = 0 then 1604 else y)
            (if m = 0 then 1 else m) (if d = 0 then 1 else d)))) nameEq_bday]
      exact date_readback y m d hy hm hd hall

/-- Witness for date_roundtrip at the partial date 0000-03-15 (the
spec's scenario 4) on the empty card. -/
theorem date_roundtrip_witness :
    ((0 : Nat) = 0 ∨ (1605 ≤ 0 ∧ 0 ≤ 9999)) ∧ (3 : Nat) ≤ 12 ∧
      (15 : Nat) ≤ 31 ∧
    ∃ card2,
      _date_to_card ⟨[]⟩ "bday" (some (.str (fmtDate 0 3 15))) = some card2 ∧
      _date_to_jmap (vparse_get_entry card2 "bday") = fmtDate 0 3 15 :=
  ⟨Or.inl rfl, by omega, by omega,
    date_roundtrip ⟨[]⟩ 0 3 15 (Or.inl rfl) (by omega) (by omega)⟩

theorem stripLoop_eq_filter (c : List String) (r : List String) :
    stripLoop c r = r.filter (fun del => !(c.any (fun up => del == up))) := by
  induction r with
  | nil => rfl
  | cons a rest ih =>
      cases h : c.any (fun up => a == up) with
      | true => simp [stripLoop, List.filter_cons, h, ih]
      | false => simp [stripLoop, List.filter_cons, h, ih]

theorem mem_changed_of_alive (rows : List (String × Bool)) (uid : String)
    (h : (uid, true) ∈ rows) : uid ∈ (getupdates_fold rows).changed := by
  induction rows with
  | nil => simp at h
  | cons row rest ih =>
      obtain ⟨u, a⟩ := row
      rcases List.mem_cons.mp h with heq | hmem
      · injection heq with h1 h2
        subst h1; subst h2
        simp [getupdates_fold]
      · have hr := ih hmem
        cases a <;> simp [getupdates_fold, hr]

theorem not_mem_of_mem_stripLoop (c r : List String) (x : String)
    (hx : x ∈ stripLoop c r) : x ∉ c := by
  intro hc
  rw [stripLoop_eq_filter] at hx
  have hpred := (List.mem_filter.mp hx).2
  have htrue : c.any (fun up => x == up) = true :=
    List.any_eq_true.mpr ⟨x, hc, by simp⟩
  rw [htrue] at hpred
  exact Bool.noConfusion hpred

/-- C5: strip_spurious_deletes leaves changed untouched and filters out
of removed exactly the UIDs that also occur in changed, keeping the
rest in their original order; consequently an update enumeration in
which a UID occurs both alive and tombstoned reports it in changed
only. -/
theorem strip_spurious_deletes_spec (u : UpdatesRock) :
    (strip_spurious_deletes u).changed = u.changed ∧
    (strip_spurious_deletes u).removed
      = u.removed.filter (fun del => !(u.changed.any (fun up => del == up))) ∧
    (∀ x ∈ (strip_spurious_deletes u).removed, x ∉ u.changed) ∧
    (∀ rows : List (String × Bool), ∀ uid : String,
      (uid, true) ∈ rows → (uid, false) ∈ rows →
        uid ∈ (contactUpdatesLists rows).changed ∧
        uid ∉ (contactUpdatesLists rows).removed) := by
  refine ⟨rfl, stripLoop_eq_filter u.changed u.removed, ?_, ?_⟩
  · intro x hx
    exact not_mem_of_mem_stripLoop u.changed u.removed x hx
  · intro rows uid halive _hdead
    have hchanged : uid ∈ (getupdates_fold rows).changed :=
      mem_changed_of_alive rows uid halive
    refine ⟨hchanged, ?_⟩
    intro hrem
    exact not_mem_of_mem_stripLoop (getupdates_fold rows).changed
      (getupdates_fold rows).removed uid hrem hchanged

/-- Witness for the spurious-delete consequence: a UID X both alive and
tombstoned since sinceState is reported in changed only. -/
theorem strip_spurious_deletes_witness :
    (("X", true) ∈ [("X", true), ("X", false), ("Y", false)]) ∧
    (("X", false) ∈ [("X", true), ("X", false), ("Y", false)]) ∧
    ("X" ∈ (contactUpdatesLists
        [("X", true), ("X", false), ("Y", false)]).changed ∧
      "X" ∉ (contactUpdatesLists
        [("X", true), ("X", false), ("Y", false)]).removed) :=
  ⟨by simp, by simp,
    (strip_spurious_deletes_spec ⟨[], []⟩).2.2.2
      [("X", true), ("X", false), ("Y", false)] "X" (by simp) (by simp)⟩

/-- C7 counterexample: a mailbox whose rights grant lookup but not read
is skipped by getMailboxes_cb, refuting the claim that a mailbox is
omitted exactly when it lacks both rights. -/
theorem getMailboxes_cb_claim_cex :
    getMailboxes_cb_entry ⟨true, false, true, true, true, true⟩
      "u1" "user.test.mbox" 3 1 = none ∧
    ¬ ((getMailboxes_cb_entry ⟨true, false, true, true, true, true⟩
          "u1" "user.test.mbox" 3 1 = none) ↔
        ((⟨true, false, true, true, true, true⟩ : AclRights).lookup = false ∧
         (⟨true, false, true, true, true, true⟩ : AclRights).read
            = false)) := by
  refine ⟨rfl, ?_⟩
  intro h
  have h2 := h.mp rfl
  simp at h2

/-- C7 amended: a mailbox is omitted from the getMailboxes list exactly
when it lacks the lookup right or the read right (both are required for
inclusion); an included mailbox contributes the entry whose may*
booleans come from the insert, deletemsg, create and deletembox rights
and whose counts come from the status summary. -/
theorem getMailboxes_cb_amended (r : AclRights) (uid name : String)
    (messages unseen : Nat) :
    (getMailboxes_cb_entry r uid name messages unseen = none ↔
      ¬ (r.lookup = true ∧ r.read = true)) ∧
    (r.lookup = true → r.read = true →
      getMailboxes_cb_entry r uid name messages unseen
        = some (.obj [("id", .str uid), ("name", .str name),
            ("parentId", .null), ("role", .null),
            ("mayAddMessages", .bool r.insert),
            ("mayRemoveMessages", .bool r.deletemsg),
            ("mayCreateChild", .bool r.create),
            ("mayDeleteMailbox", .bool r.deletembox),
            ("totalMessages", .num (Int.ofNat messages)),
            ("unreadMessages", .num (Int.ofNat unseen))])) := by
  constructor
  · cases hl : r.lookup <;> cases hr : r.read <;>
      simp [getMailboxes_cb_entry, hl, hr]
  · intro hl hr
    simp [getMailboxes_cb_entry, hl, hr]

/-- Witness for getMailboxes_cb_amended on a fully readable mailbox. -/
theorem getMailboxes_cb_amended_witness :
    ((⟨true, true, false, true, false, true⟩ : AclRights).lookup = true) ∧
    ((⟨true, true, false, true, false, true⟩ : AclRights).read = true) ∧
    getMailboxes_cb_entry ⟨true, true, false, true, false, true⟩
        "u1" "user.test" 2 1
      = some (.obj [("id", .str "u1"), ("name", .str "user.test"),
          ("parentId", .null), ("role", .null),
          ("mayAddMessages", .bool false),
          ("mayRemoveMessages", .bool true),
          ("mayCreateChild", .bool false),
          ("mayDeleteMailbox", .bool true),
          ("totalMessages", .num (Int.ofNat 2)),
          ("unreadMessages", .num (Int.ofNat 1))]) :=
  ⟨rfl, rfl,
    (getMailboxes_cb_amended ⟨true, true, false, true, false, true⟩
      "u1" "user.test" 2 1).2 rfl rfl⟩

theorem carddav_remove_mem (st : Store) (m : Msg) (b : Bool)
    (hm : m ∈ st.msgs) (hexp : m.expunged = false) :
    { m with expunged := true, unbind := m.unbind || b }
      ∈ (carddav_remove st m.mbox m.imapUid b).msgs := by
  have h := List.mem_map_of_mem (fun mm : Msg =>
    if mm.mbox == m.mbox && mm.imapUid == m.imapUid && !mm.expunged then
      { mm with expunged := true, unbind := mm.unbind || b }
    else mm) hm
  simpa [carddav_remove, hexp] using h

/-- C8: a same-mailbox replacement expunges the superseded record with
the unbind flag set (the update paths pass isreplace = !newmailbox,
true when there is no move); a cross-mailbox move or a destroy expunges
it without the flag. -/
theorem expunge_discipline (st : Store) (m : Msg) (nm : String)
    (hm : m ∈ st.msgs) (hexp : m.expunged = false)
    (hunb : m.unbind = false) :
    update_isreplace none = true ∧ update_isreplace (some nm) = false ∧
    destroy_isreplace = false ∧
    { m with expunged := true, unbind := true }
      ∈ (carddav_remove st m.mbox m.imapUid (update_isreplace none)).msgs ∧
    { m with expunged := true, unbind := false }
      ∈ (carddav_remove st m.mbox m.imapUid
          (update_isreplace (some nm))).msgs ∧
    { m with expunged := true, unbind := false }
      ∈ (carddav_remove st m.mbox m.imapUid destroy_isreplace).msgs := by
  refine ⟨rfl, rfl, rfl, ?_, ?_, ?_⟩
  · simpa [update_isreplace, hunb]
      using carddav_remove_mem st m true hm hexp
  · simpa [update_isreplace, hunb]
      using carddav_remove_mem st m false hm hexp
  · simpa [destroy_isreplace, hunb]
      using carddav_remove_mem st m false hm hexp

/-- Witness for expunge_discipline on a one-record store. -/
theorem expunge_discipline_witness :
    (mWit ∈ stWit.msgs) ∧ mWit.expunged = false ∧ mWit.unbind = false ∧
    (update_isreplace none = true ∧
      update_isreplace (some "user.t.#addressbooks.Work") = false ∧
      destroy_isreplace = false ∧
      { mWit with expunged := true, unbind := true }
        ∈ (carddav_remove stWit mWit.mbox mWit.imapUid
            (update_isreplace none)).msgs ∧
      { mWit with expunged := true, unbind := false }
        ∈ (carddav_remove stWit mWit.mbox mWit.imapUid
            (update_isreplace (some "user.t.#addressbooks.Work"))).msgs ∧
      { mWit with expunged := true, unbind := false }
        ∈ (carddav_remove stWit mWit.mbox mWit.imapUid
            destroy_isreplace).msgs) :=
  ⟨List.mem_singleton.mpr rfl, rfl, rfl,
    expunge_discipline stWit mWit "user.t.#addressbooks.Work"
      (List.mem_singleton.mpr rfl) rfl rfl⟩

/-- C2: an ifInState string value different from the current state
makes setContacts and setContactGroups append exactly the stateMismatch
error response, leave the store and idmap untouched, and return 0 so
the batch continues. -/
theorem ifInState_mismatch (userid state tag : String)
    (idmap : List (String × String)) (st : Store) (args : JVal) (s : String)
    (hif : json_object_get args "ifInState" = some (.str s))
    (hne : s ≠ state) :
    setContacts ⟨userid, state, tag, args, idmap⟩ st
      = ([errorResponse "stateMismatch" tag], st, idmap, 0) ∧
    setContactGroups ⟨userid, state, tag, args, idmap⟩ st
      = ([errorResponse "stateMismatch" tag], st, idmap, 0) := by
  constructor
  · simp [setContacts, hif, json_string_value, hne]
  · simp [setContactGroups, hif, json_string_value, hne]

/-- Witness for ifInState_mismatch: current state 42, ifInState 41. -/
theorem ifInState_mismatch_witness :
    json_object_get (.obj [("ifInState", .str "41")]) "ifInState"
      = some (.str "41") ∧
    "41" ≠ "42" ∧
    (setContacts ⟨"test", "42", "t1",
        .obj [("ifInState", .str "41")], []⟩ ⟨[], 1, 0, 42⟩
      = ([errorResponse "stateMismatch" "t1"], ⟨[], 1, 0, 42⟩, [], 0) ∧
     setContactGroups ⟨"test", "42", "t1",
        .obj [("ifInState", .str "41")], []⟩ ⟨[], 1, 0, 42⟩
      = ([errorResponse "stateMismatch" "t1"], ⟨[], 1, 0, 42⟩, [], 0)) :=
  ⟨rfl, by decide,
    ifInState_mismatch "test" "42" "t1" [] ⟨[], 1, 0, 42⟩
      (.obj [("ifInState", .str "41")]) "41" rfl (by decide)⟩

/-- C9: an ifInState value that is not a JSON string (json_string_value
NULL) takes the same path as a mismatched state: the stateMismatch
error alone is appended (never invalidArguments), the store is
untouched and the handler returns 0. -/
theorem ifInState_nonstring (userid state tag : String)
    (idmap : List (String × String)) (st : Store) (args : JVal) (jv : JVal)
    (hif : json_object_get args "ifInState" = some jv)
    (hns : json_string_value jv = none) :
    setContacts ⟨userid, state, tag, args, idmap⟩ st
      = ([errorResponse "stateMismatch" tag], st, idmap, 0) ∧
    setContactGroups ⟨userid, state, tag, args, idmap⟩ st
      = ([errorResponse "stateMismatch" tag], st, idmap, 0) := by
  constructor
  · simp [setContacts, hif, hns]
  · simp [setContactGroups, hif, hns]

/-- Witness for ifInState_nonstring: a null ifInState. -/
theorem ifInState_nonstring_witness :
    json_object_get (.obj [("ifInState", .null)]) "ifInState"
      = some .null ∧
    json_string_value .null = none ∧
    (setContacts ⟨"test", "42", "t1",
        .obj [("ifInState", .null)], []⟩ ⟨[], 1, 0, 42⟩
      = ([errorResponse "stateMismatch" "t1"], ⟨[], 1, 0, 42⟩, [], 0) ∧
     setContactGroups ⟨"test", "42", "t1",
        .obj [("ifInState", .null)], []⟩ ⟨[], 1, 0, 42⟩
      = ([errorResponse "stateMismatch" "t1"], ⟨[], 1, 0, 42⟩, [], 0)) :=
  ⟨rfl, rfl,
    ifInState_nonstring "test" "42" "t1" [] ⟨[], 1, 0, 42⟩
      (.obj [("ifInState", .null)]) .null rfl rfl⟩

theorem j2cKey_unknown (st : J2CState) (k : String) (jv : JVal)
    (hout : k ∉ allowedContactKeys) : j2cKey st k jv = none := by
  have h : ¬ (k = "isFlagged") ∧ ¬ (k = "x-importance") ∧ ¬ (k = "avatar") ∧
      ¬ (k = "prefix") ∧ ¬ (k = "firstName") ∧ ¬ (k = "lastName") ∧
      ¬ (k = "suffix") ∧ ¬ (k = "nickname") ∧ ¬ (k = "birthday") ∧
      ¬ (k = "anniversary") ∧ ¬ (k = "company") ∧ ¬ (k = "department") ∧
      ¬ (k = "jobTitle") ∧ ¬ (k = "emails") ∧ ¬ (k = "phones") ∧
      ¬ (k = "online") ∧ ¬ (k = "addresses") ∧ ¬ (k = "notes") := by
    simpa [allowedContactKeys, not_or] using hout
  have e1 : (k == "isFlagged") = false := beq_eq_false_iff_ne.mpr h.1
  have e2 : (k == "x-importance") = false := beq_eq_false_iff_ne.mpr h.2.1
  have e3 : (k == "avatar") = false := beq_eq_false_iff_ne.mpr h.2.2.1
  have e4 : (k == "prefix") = false := beq_eq_false_iff_ne.mpr h.2.2.2.1
  have e5 : (k == "firstName") = false := beq_eq_false_iff_ne.mpr h.2.2.2.2.1
  have e6 : (k == "lastName") = false := beq_eq_false_iff_ne.mpr h.2.2.2.2.2.1
  have e7 : (k == "suffix") = false := beq_eq_false_iff_ne.mpr h.2.2.2.2.2.2.1
  have e8 : (k == "nickname") = false := beq_eq_false_iff_ne.mpr h.2.2.2.2.2.2.2.1
  have e9 : (k == "birthday") = false := beq_eq_false_iff_ne.mpr h.2.2.2.2.2.2.2.2.1
  have e10 : (k == "anniversary") = false := beq_eq_false_iff_ne.mpr h.2.2.2.2.2.2.2.2.2.1
  have e11 : (k == "company") = false := beq_eq_false_iff_ne.mpr h.2.2.2.2.2.2.2.2.2.2.1
  have e12 : (k == "department") = false := beq_eq_false_iff_ne.mpr h.2.2.2.2.2.2.2.2.2.2.2.1
  have e13 : (k == "jobTitle") = false := beq_eq_false_iff_ne.mpr h.2.2.2.2.2.2.2.2.2.2.2.2.1
  have e14 : (k == "emails") = false := beq_eq_false_iff_ne.mpr h.2.2.2.2.2.2.2.2.2.2.2.2.2.1
  have e15 : (k == "phones") = false := beq_eq_false_iff_ne.mpr h.2.2.2.2.2.2.2.2.2.2.2.2.2.2.1
  have e16 : (k == "online") = false := beq_eq_false_iff_ne.mpr h.2.2.2.2.2.2.2.2.2.2.2.2.2.2.2.1
  have e17 : (k == "addresses") = false := beq_eq_false_iff_ne.mpr h.2.2.2.2.2.2.2.2.2.2.2.2.2.2.2.2.1
  have e18 : (k == "notes") = false := beq_eq_false_iff_ne.mpr h.2.2.2.2.2.2.2.2.2.2.2.2.2.2.2.2.2
  simp [j2cKey, e1, e2, e3, e4, e5, e6, e7, e8, e9, e10, e11, e12, e13, e14, e15, e16, e17, e18]

theorem j2cLoop_err (st : J2CState) (kvs : List (String × JVal))
    (h : ∃ kv ∈ kvs, kv.1 ∉ allowedContactKeys) : j2cLoop st kvs = none := by
  induction kvs generalizing st with
  | nil => simp at h
  | cons kv rest ih =>
      obtain ⟨k, v⟩ := kv
      rcases h with ⟨bad, hbad, hout⟩
      rcases List.mem_cons.mp hbad with heq | hmem
      · subst heq
        simp [j2cLoop, j2cKey_unknown st k v (by simpa using hout)]
      · cases hk : j2cKey st k v with
        | none => simp [j2cLoop, hk]
        | some st2 =>
            simp only [j2cLoop, hk]
            exact ih st2 ⟨bad, hmem, hout⟩

theorem json_to_card_unknown_err (card : VCard) (arg : JVal)
    (flags : List String) (annots : List (String × Int))
    (h : ∃ kv ∈ jobjKVs arg, kv.1 ∉ allowedContactKeys) :
    (_json_to_card card arg flags annots).1 = J2CCode.err := by
  cases hfn : vparse_get_entry card "fn" <;>
    simp [_json_to_card, hfn, j2cLoop_err _ _ h]

theorem mem_jobjKVs_del (arg : JVal) (k : String) (v : JVal) (dk : String)
    (h : (k, v) ∈ jobjKVs arg) (hne : k ≠ dk) :
    (k, v) ∈ jobjKVs (json_object_del arg dk) := by
  cases arg <;> simp [jobjKVs, json_object_del] at h ⊢
  exact ⟨h, hne⟩

/-- C4 counterexample: the key avatar is outside the documented contact
key set, yet _json_to_card accepts it as a no-op: a setContacts create
carrying only avatar succeeds, records the item in created (never
notCreated) and stores a card. -/
theorem setContacts_avatar_cex :
    (_json_to_card ⟨[⟨"VERSION", [], .single "3.0"⟩,
        ⟨"UID", [], .single "uuid-0"⟩]⟩
      (.obj [("avatar", .str "blob")]) [] []).1 = J2CCode.ok ∧
    payloadGet (setContacts ⟨"test", "1", "t1",
        .obj [("create", .obj [("c1", .obj [("avatar", .str "blob")])])], []⟩
        ⟨[], 1, 0, 1⟩).1 "created"
      = some (.obj [("c1", .obj [("id", .str "uuid-0")])]) ∧
    payloadGet (setContacts ⟨"test", "1", "t1",
        .obj [("create", .obj [("c1", .obj [("avatar", .str "blob")])])], []⟩
        ⟨[], 1, 0, 1⟩).1 "notCreated" = none ∧
    (setContacts ⟨"test", "1", "t1",
        .obj [("create", .obj [("c1", .obj [("avatar", .str "blob")])])], []⟩
        ⟨[], 1, 0, 1⟩).2.1.msgs.length = 1 ∧
    "avatar" ∉ ["isFlagged", "x-importance", "prefix", "firstName",
      "lastName", "suffix", "nickname", "birthday", "anniversary",
      "company", "department", "jobTitle", "emails", "phones", "online",
      "addresses", "notes"] :=
  ⟨rfl, rfl, rfl, rfl, by decide⟩

/-- C4 amended: for keys outside the dispatch set (the documented keys
plus avatar, with addressbookId being consumed for mailbox routing
before the mapper runs), the mapper rejects the object; the create item
is recorded in notCreated with invalidParameters and stores nothing,
and an update item (shown without a move) is recorded in notUpdated
with invalidParameters and stores nothing. -/
theorem setContacts_unknown_key (userid : String)
    (idmap : List (String × String)) (st : Store) (key : String)
    (arg : JVal) (k : String) (v : JVal)
    (hk : (k, v) ∈ jobjKVs arg)
    (hout : k ∉ allowedContactKeys) (hnab : k ≠ "addressbookId") :
    (contactCreateLoop userid ⟨[], [], st, idmap⟩ [(key, arg)]).created
      = [] ∧
    (contactCreateLoop userid ⟨[], [], st, idmap⟩ [(key, arg)]).notCreated
      = [(key, itemError "invalidParameters")] ∧
    (contactCreateLoop userid ⟨[], [], st, idmap⟩ [(key, arg)]).st.msgs
      = st.msgs ∧
    (contactCreateLoop userid ⟨[], [], st, idmap⟩ [(key, arg)]).idmap
      = idmap ∧
    (∀ (uid : String) (cdata : CarddavData) (msg : Msg),
      carddav_lookup_uid st uid = some cdata →
      cdata.imap_uid ≠ 0 →
      cdata.kind = CARDDAV_KIND_CONTACT →
      json_object_get arg "addressbookId" = none →
      findMsg st cdata.mailbox cdata.imap_uid = some msg →
      (contactUpdateLoop userid ⟨[], [], st, false⟩ [(uid, arg)]).updated
        = [] ∧
      (contactUpdateLoop userid ⟨[], [], st, false⟩ [(uid, arg)]).notUpdated
        = [(uid, itemError "invalidParameters")] ∧
      (contactUpdateLoop userid ⟨[], [], st, false⟩ [(uid, arg)]).st.msgs
        = st.msgs) := by
  have herrC : (_json_to_card ⟨[⟨"VERSION", [], .single "3.0"⟩,
      ⟨"UID", [], .single (mkuuid st.uuidCtr)⟩]⟩
      (json_object_del arg "addressbookId") [] []).1 = J2CCode.err :=
    json_to_card_unknown_err _ _ _ _
      ⟨(k, v), mem_jobjKVs_del arg k v "addressbookId" hk hnab, hout⟩
  have hcreate :
      contactCreateLoop userid ⟨[], [], st, idmap⟩ [(key, arg)]
        = ⟨[], [(key, itemError "invalidParameters")],
            { st with uuidCtr := st.uuidCtr + 1 }, idmap⟩ := by
    rcases h4 : _json_to_card ⟨[⟨"VERSION", [], .single "3.0"⟩,
        ⟨"UID", [], .single (mkuuid st.uuidCtr)⟩]⟩
        (json_object_del arg "addressbookId") [] []
      with ⟨code, c2, f2, a2⟩
    rw [h4] at herrC
    simp only at herrC
    subst herrC
    simp [contactCreateLoop, h4]
  refine ⟨by rw [hcreate], by rw [hcreate], by rw [hcreate],
    by rw [hcreate], ?_⟩
  intro uid cdata msg hlook hiu hkind habs hfind
  have herrU : (_json_to_card msg.card arg msg.flags msg.annots).1
      = J2CCode.err :=
    json_to_card_unknown_err _ _ _ _ ⟨(k, v), hk, hout⟩
  have hjs : _json_object_get_string arg "addressbookId" = none := by
    simp [_json_object_get_string, habs]
  rcases h4 : _json_to_card msg.card arg msg.flags msg.annots
    with ⟨code, c2, f2, a2⟩
  rw [h4] at herrU
  simp only at herrU
  subst herrU
  have hupd :
      contactUpdateLoop userid ⟨[], [], st, false⟩ [(uid, arg)]
        = ⟨[], [(uid, itemError "invalidParameters")], st, false⟩ := by
    simp [contactUpdateLoop, hlook, hiu, hkind, hjs, hfind, h4]
  exact ⟨by rw [hupd], by rw [hupd], by rw [hupd]⟩

/-- Witness for setContacts_unknown_key at the key foo. -/
theorem setContacts_unknown_key_witness :
    (("foo", JVal.str "x") ∈ jobjKVs (.obj [("foo", .str "x")])) ∧
    "foo" ∉ allowedContactKeys ∧ "foo" ≠ "addressbookId" ∧
    ((contactCreateLoop "test" ⟨[], [], ⟨[], 1, 0, 1⟩, []⟩
        [("c1", .obj [("foo", .str "x")])]).created = [] ∧
     (contactCreateLoop "test" ⟨[], [], ⟨[], 1, 0, 1⟩, []⟩
        [("c1", .obj [("foo", .str "x")])]).notCreated
        = [("c1", itemError "invalidParameters")]) :=
  ⟨by simp [jobjKVs], by decide, by decide,
    ⟨(setContacts_unknown_key "test" [] ⟨[], 1, 0, 1⟩ "c1"
      (.obj [("foo", .str "x")]) "foo" (.str "x") (by simp [jobjKVs])
      (by decide) (by decide)).1,
     (setContacts_unknown_key "test" [] ⟨[], 1, 0, 1⟩ "c1"
      (.obj [("foo", .str "x")]) "foo" (.str "x") (by simp [jobjKVs])
      (by decide) (by decide)).2.1⟩⟩

theorem nameEq_comm (a b : String) : nameEq a b = nameEq b a := by
  simp [nameEq, eq_comm]

theorem nameEq_trans_ne (s a b : String) (h1 : nameEq s a = true)
    (h2 : nameEq a b = false) : nameEq s b = false := by
  simp only [nameEq, decide_eq_true_eq, decide_eq_false_iff_not] at *
  rw [h1]; exact h2

theorem find?_append {α : Type} (p : α → Bool) (l1 l2 : List α) :
    (l1 ++ l2).find? p = ((l1.find? p).orElse fun _ => l2.find? p) := by
  induction l1 with
  | nil => simp
  | cons a l ih =>
      cases hpa : p a with
      | true => simp [List.find?_cons, hpa]
      | false => simp [List.find?_cons, hpa, ih]

theorem get_entry_add_ne (card : VCard) (e : VEntry) (name : String)
    (h : nameEq e.name name = false) :
    vparse_get_entry (vparse_add_entry card e) name
      = vparse_get_entry card name := by
  unfold vparse_get_entry vparse_add_entry
  rw [show (⟨card.props ++ [e]⟩ : VCard).props = card.props ++ [e] from rfl,
    find?_append]
  cases hf : card.props.find? (fun x => nameEq x.name name) with
  | some x => simp
  | none => simp [List.find?_cons, h]

theorem get_entry_delete_ne (card : VCard) (dn name : String)
    (h : nameEq name dn = false) :
    vparse_get_entry (vparse_delete_entries card dn) name
      = vparse_get_entry card name := by
  unfold vparse_get_entry vparse_delete_entries
  induction card.props with
  | nil => rfl
  | cons e rest ih =>
      cases hp : nameEq e.name name with
      | true =>
          have hd : nameEq e.name dn = false := nameEq_trans_ne _ _ _ hp h
          simp [List.filter_cons, hd, List.find?_cons, hp]
      | false =>
          cases hd : nameEq e.name dn with
          | true => simpa [List.filter_cons, hd, List.find?_cons, hp] using ih
          | false => simpa [List.filter_cons, hd, List.find?_cons, hp] using ih

theorem find?_setFirstVal_ne (props : List VEntry) (n v name : String)
    (h : nameEq n name = false) :
    (setFirstVal props n v).find? (fun e => nameEq e.name name)
      = props.find? (fun e => nameEq e.name name) := by
  induction props with
  | nil => rfl
  | cons e rest ih =>
      cases hm : nameEq e.name n with
      | true =>
          have hp : nameEq e.name name = false := nameEq_trans_ne _ _ _ hm h
          simp [setFirstVal, hm, List.find?_cons, hp]
      | false => simp [setFirstVal, hm, List.find?_cons, ih]

theorem get_entry_card_val_ne (card : VCard) (n v name : String)
    (h : nameEq n name = false) :
    vparse_get_entry (_card_val card n v) name
      = vparse_get_entry card name := by
  unfold _card_val
  cases hg : vparse_get_entry card n with
  | some e =>
      unfold vparse_get_entry
      exact find?_setFirstVal_ne card.props n v name h
  | none =>
      have := get_entry_add_ne card ⟨n, [], .single v⟩ name h
      simpa [vparse_add_entry] using this

theorem find?_setFirstMulti_ne (props : List VEntry) (n : String)
    (idx : Nat) (v name : String) (h : nameEq n name = false) :
    (setFirstMulti props n idx v).find? (fun e => nameEq e.name name)
      = props.find? (fun e => nameEq e.name name) := by
  induction props with
  | nil => rfl
  | cons e rest ih =>
      cases hm : nameEq e.name n with
      | true =>
          have hp : nameEq e.name name = false := nameEq_trans_ne _ _ _ hm h
          simp [setFirstMulti, hm, List.find?_cons, hp]
      | false => simp [setFirstMulti, hm, List.find?_cons, ih]

theorem get_entry_cardMultiSet_ne (card : VCard) (n : String) (idx : Nat)
    (v name : String) (h : nameEq n name = false) :
    vparse_get_entry (cardMultiSet card n idx v) name
      = vparse_get_entry card name := by
  unfold cardMultiSet
  cases hg : vparse_get_entry card n with
  | some e =>
      unfold vparse_get_entry
      exact find?_setFirstMulti_ne card.props n idx v name h
  | none =>
      have := get_entry_add_ne card
        ⟨n, [], .multi (strarray_set [] idx v)⟩ name h
      simpa [vparse_add_entry] using this

/-- C6 counterexample: a nickname-only update on a card that already
has an FN leaves FN unchanged (the nickname case of _json_to_card sets
only record_is_dirty, not name_is_dirty), although the claim says FN
must be recomputed to the nickname. -/
theorem json_to_card_nickname_cex :
    (_json_to_card ⟨[⟨"fn", [], .single "Old Name"⟩]⟩
      (.obj [("nickname", .str "Nick")]) [] []).1 = J2CCode.ok ∧
    vparse_stringval (_json_to_card ⟨[⟨"fn", [], .single "Old Name"⟩]⟩
      (.obj [("nickname", .str "Nick")]) [] []).2.1 "fn"
      = some "Old Name" ∧
    vparse_stringval (_json_to_card ⟨[⟨"fn", [], .single "Old Name"⟩]⟩
      (.obj [("nickname", .str "Nick")]) [] []).2.1 "nickname"
      = some "Nick" ∧
    "Old Name" ≠ "Nick" :=
  ⟨rfl, rfl, rfl, by decide⟩

theorem nameEq_refl (a : String) : nameEq a a = true := by
  simp [nameEq]

theorem find?_setFirstVal_self (props : List VEntry) (n v : String)
    (e : VEntry) (h : props.find? (fun x => nameEq x.name n) = some e) :
    (setFirstVal props n v).find? (fun x => nameEq x.name n)
      = some { e with value := .single v } := by
  induction props with
  | nil => simp at h
  | cons a rest ih =>
      cases ha : nameEq a.name n with
      | true =>
          rw [List.find?_cons, ha] at h
          injection h with h2
          subst h2
          simp [setFirstVal, ha, List.find?_cons]
      | false =>
          rw [List.find?_cons, ha] at h
          simp [setFirstVal, ha, List.find?_cons, ih h]

theorem stringval_card_val_self (card : VCard) (n v : String) :
    vparse_stringval (_card_val card n v) n = some v := by
  unfold _card_val
  cases hg : vparse_get_entry card n with
  | some e =>
      unfold vparse_stringval vparse_get_entry
      unfold vparse_get_entry at hg
      rw [find?_setFirstVal_self card.props n v e hg]
  | none =>
      unfold vparse_stringval vparse_get_entry
      unfold vparse_get_entry at hg
      rw [show (⟨card.props ++ [⟨n, [], VValue.single v⟩]⟩ : VCard).props
            = card.props ++ [⟨n, [], VValue.single v⟩] from rfl,
        find?_append, hg]
      simp [List.find?_cons, nameEq_refl]

theorem intercalate_singleton (a : String) :
    String.intercalate " " [a] = a := rfl

/-- _make_fn writes exactly the FN formula of the claim. -/
theorem make_fn_spec (card : VCard) :
    vparse_stringval (_make_fn card) "fn" = some (claimFn card) := by
  unfold _make_fn
  rw [stringval_card_val_self]
  congr 1
  unfold claimFn cardMultival
  cases hn : vparse_get_entry card "n" with
  | none =>
      simp only [strarray_safenth, List.getD_nil]
      norm_num
      cases hnick : vparse_stringval card "nickname" with
      | none =>
          cases hem : vparse_stringval card "email" with
          | none => simp [intercalate_singleton]
          | some w =>
              by_cases hw : w = "" <;> simp [hw, intercalate_singleton]
      | some v =>
          by_cases hv : v = ""
          · cases hem : vparse_stringval card "email" with
            | none => simp [hv, intercalate_singleton]
            | some w =>
                by_cases hw : w = "" <;>
                  simp [hv, hw, intercalate_singleton]
          · simp [hv, intercalate_singleton]
  | some e =>
      cases hev : e.value with
      | single str =>
          simp only [hev]
          simp only [strarray_safenth, List.getD_nil]
          norm_num
          cases hnick : vparse_stringval card "nickname" with
          | none =>
              cases hem : vparse_stringval card "email" with
              | none => simp [intercalate_singleton]
              | some w =>
                  by_cases hw : w = "" <;> simp [hw, intercalate_singleton]
          | some v =>
              by_cases hv : v = ""
              · cases hem : vparse_stringval card "email" with
                | none => simp [hv, intercalate_singleton]
                | some w =>
                    by_cases hw : w = "" <;>
                      simp [hv, hw, intercalate_singleton]
              · simp [hv, intercalate_singleton]
      | multi ws =>
          simp only [hev]
          by_cases hc : ([strarray_safenth ws 3, strarray_safenth ws 1,
              strarray_safenth ws 2, strarray_safenth ws 0,
              strarray_safenth ws 4].filter (fun v => v ≠ "")) = []
          · simp only [hc, if_pos rfl]
            norm_num
            cases hnick : vparse_stringval card "nickname" with
            | none =>
                cases hem : vparse_stringval card "email" with
                | none => simp [intercalate_singleton]
                | some w =>
                    by_cases hw : w = "" <;> simp [hw, intercalate_singleton]
            | some v =>
                by_cases hv : v = ""
                · cases hem : vparse_stringval card "email" with
                  | none => simp [hv, intercalate_singleton]
                  | some w =>
                      by_cases hw : w = "" <;>
                        simp [hv, hw, intercalate_singleton]
                · simp [hv, intercalate_singleton]
          · simp only [if_neg hc]
            rw [if_pos hc]

theorem claimFn_card_val_fn (card : VCard) (v : String) :
    claimFn (_card_val card "fn" v) = claimFn card := by
  unfold claimFn cardMultival vparse_stringval
  rw [get_entry_card_val_ne card "fn" v "n" (by decide),
      get_entry_card_val_ne card "fn" v "nickname" (by decide),
      get_entry_card_val_ne card "fn" v "email" (by decide)]

theorem claimFn_make_fn (card : VCard) :
    claimFn (_make_fn card) = claimFn card := by
  unfold _make_fn
  exact claimFn_card_val_fn card _

theorem kv_to_card_get_ne (card : VCard) (key : String) (jv : Option JVal)
    (c2 : VCard) (name : String) (h : _kv_to_card card key jv = some c2)
    (hne : nameEq key name = false) :
    vparse_get_entry c2 name = vparse_get_entry card name := by
  unfold _kv_to_card at h
  repeat' split at h
  · exact Option.noConfusion h
  · exact Option.noConfusion h
  · injection h with h2
    subst h2
    exact get_entry_card_val_ne card key _ name hne

theorem get_entry_delete_append_ne (card : VCard) (key name : String)
    (ps : List VParam) (vv : VValue) (hne : nameEq name key = false) :
    vparse_get_entry
      ⟨(vparse_delete_entries card key).props ++ [⟨key, ps, vv⟩]⟩ name
      = vparse_get_entry card name := by
  have h1 := get_entry_add_ne (vparse_delete_entries card key)
    ⟨key, ps, vv⟩ name (by rw [nameEq_comm]; exact hne)
  rw [show vparse_add_entry (vparse_delete_entries card key) ⟨key, ps, vv⟩
      = (⟨(vparse_delete_entries card key).props
          ++ [⟨key, ps, vv⟩]⟩ : VCard) from rfl] at h1
  rw [h1]
  exact get_entry_delete_ne card key name hne

theorem date_to_card_get_ne (card : VCard) (key : String) (jv : Option JVal)
    (c2 : VCard) (name : String) (h : _date_to_card card key jv = some c2)
    (hne : nameEq name key = false) :
    vparse_get_entry c2 name = vparse_get_entry card name := by
  unfold _date_to_card at h
  repeat' split at h
  all_goals try simp only [] at h
  all_goals try (repeat' split at h)
  all_goals
    first
      | exact Option.noConfusion h
      | (injection h with h2
         subst h2
         exact get_entry_delete_ne card key name hne)
      | (injection h with h2
         subst h2
         exact get_entry_delete_append_ne card key name _ _ hne)

theorem emailsLoop_get_ne (items : List JVal) (card c2 : VCard)
    (name : String) (h : emailsLoop card items = some c2)
    (hne : nameEq "email" name = false) :
    vparse_get_entry c2 name = vparse_get_entry card name := by
  induction items generalizing card with
  | nil =>
      injection h with h2
      subst h2
      rfl
  | cons item rest ih =>
      unfold emailsLoop at h
      repeat' split at h
      all_goals
        first
          | exact Option.noConfusion h
          | (rw [ih _ h]
             exact get_entry_add_ne card _ name hne)

theorem phonesLoop_get_ne (items : List JVal) (card c2 : VCard)
    (name : String) (h : phonesLoop card items = some c2)
    (hne : nameEq "tel" name = false) :
    vparse_get_entry c2 name = vparse_get_entry card name := by
  induction items generalizing card with
  | nil =>
      injection h with h2
      subst h2
      rfl
  | cons item rest ih =>
      unfold phonesLoop at h
      repeat' split at h
      all_goals
        first
          | exact Option.noConfusion h
          | (rw [ih _ h]
             exact get_entry_add_ne card _ name hne)

theorem addressesLoop_get_ne (items : List JVal) (card c2 : VCard)
    (name : String) (h : addressesLoop card items = some c2)
    (hne : nameEq "adr" name = false) :
    vparse_get_entry c2 name = vparse_get_entry card name := by
  induction items generalizing card with
  | nil =>
      injection h with h2
      subst h2
      rfl
  | cons item rest ih =>
      unfold addressesLoop at h
      repeat' split at h
      all_goals
        first
          | exact Option.noConfusion h
          | (rw [ih _ h]
             exact get_entry_add_ne card _ name hne)

theorem onlineLoop_get_ne (items : List JVal) (card c2 : VCard)
    (name : String) (h : onlineLoop card items = some c2)
    (h1 : nameEq "url" name = false) (h2 : nameEq "impp" name = false)
    (h3 : nameEq "x-social-profile" name = false) :
    vparse_get_entry c2 name = vparse_get_entry card name := by
  induction items generalizing card with
  | nil =>
      injection h with h4
      subst h4
      rfl
  | cons item rest ih =>
      unfold onlineLoop at h
      repeat' split at h
      all_goals try simp only [] at h
      all_goals try (repeat' split at h)
      all_goals
        first
          | exact Option.noConfusion h
          | exact ih _ h
          | (rw [ih _ h]
             apply get_entry_add_ne
             first | exact h1 | exact h2 | exact h3)

theorem emails_to_card_get_ne (card : VCard) (arg : JVal) (c2 : VCard)
    (h : _emails_to_card card arg = some c2) :
    vparse_get_entry c2 "fn" = vparse_get_entry card "fn" := by
  unfold _emails_to_card at h
  rw [emailsLoop_get_ne _ _ _ _ h (by decide)]
  exact get_entry_delete_ne card "email" "fn" (by decide)

theorem phones_to_card_get_ne (card : VCard) (arg : JVal) (c2 : VCard)
    (h : _phones_to_card card arg = some c2) :
    vparse_get_entry c2 "fn" = vparse_get_entry card "fn" := by
  unfold _phones_to_card at h
  rw [phonesLoop_get_ne _ _ _ _ h (by decide)]
  exact get_entry_delete_ne card "tel" "fn" (by decide)

theorem addresses_to_card_get_ne (card : VCard) (arg : JVal) (c2 : VCard)
    (h : _addresses_to_card card arg = some c2) :
    vparse_get_entry c2 "fn" = vparse_get_entry card "fn" := by
  unfold _addresses_to_card at h
  rw [addressesLoop_get_ne _ _ _ _ h (by decide)]
  exact get_entry_delete_ne card "adr" "fn" (by decide)

theorem online_to_card_get_ne (card : VCard) (arg : JVal) (c2 : VCard)
    (h : _online_to_card card arg = some c2) :
    vparse_get_entry c2 "fn" = vparse_get_entry card "fn" := by
  unfold _online_to_card at h
  rw [onlineLoop_get_ne _ _ _ _ h (by decide) (by decide) (by decide)]
  rw [get_entry_delete_ne _ "x-social-profile" "fn" (by decide)]
  rw [get_entry_delete_ne _ "impp" "fn" (by decide)]
  exact get_entry_delete_ne card "url" "fn" (by decide)

set_option maxHeartbeats 1600000 in
/-- Every accepted key of the mapper dispatch leaves the FN entry of
the card untouched (only _make_fn, run afterwards, rewrites it). -/
theorem j2cKey_get_fn_eq (st : J2CState) (k : String) (v : JVal)
    (st2 : J2CState) (h : j2cKey st k v = some st2) :
    vparse_get_entry st2.card "fn" = vparse_get_entry st.card "fn" := by
  unfold j2cKey at h
  by_cases g1 : (k == "isFlagged") = true
  · rw [if_pos g1] at h
    injection h with h2
    subst h2
    rfl
  · rw [if_neg g1] at h
    by_cases g2 : (k == "x-importance") = true
    · rw [if_pos g2] at h
      simp only [] at h
      injection h with h2
      subst h2
      rfl
    · rw [if_neg g2] at h
      by_cases g3 : (k == "avatar") = true
      · rw [if_pos g3] at h
        injection h with h2
        subst h2
        rfl
      · rw [if_neg g3] at h
        by_cases g4 : (k == "prefix") = true
        · rw [if_pos g4] at h
          cases hc : json_string_value v
          · rw [hc] at h; exact Option.noConfusion h
          · rw [hc] at h; injection h with h2; subst h2
            exact get_entry_cardMultiSet_ne st.card "n" 3 _ "fn" (by decide)
        · rw [if_neg g4] at h
          by_cases g5 : (k == "firstName") = true
          · rw [if_pos g5] at h
            cases hc : json_string_value v
            · rw [hc] at h; exact Option.noConfusion h
            · rw [hc] at h; injection h with h2; subst h2
              exact get_entry_cardMultiSet_ne st.card "n" 1 _ "fn" (by decide)
          · rw [if_neg g5] at h
            by_cases g6 : (k == "lastName") = true
            · rw [if_pos g6] at h
              cases hc : json_string_value v
              · rw [hc] at h; exact Option.noConfusion h
              · rw [hc] at h; injection h with h2; subst h2
                exact get_entry_cardMultiSet_ne st.card "n" 0 _ "fn" (by decide)
            · rw [if_neg g6] at h
              by_cases g7 : (k == "suffix") = true
              · rw [if_pos g7] at h
                cases hc : json_string_value v
                · rw [hc] at h; exact Option.noConfusion h
                · rw [hc] at h; injection h with h2; subst h2
                  exact get_entry_cardMultiSet_ne st.card "n" 4 _ "fn" (by decide)
              · rw [if_neg g7] at h
                by_cases g8 : (k == "nickname") = true
                · rw [if_pos g8] at h
                  cases hc : _kv_to_card st.card "nickname" (some v)
                  · rw [hc] at h; exact Option.noConfusion h
                  · rw [hc] at h; injection h with h2; subst h2
                    exact kv_to_card_get_ne st.card "nickname" (some v) _ "fn" hc (by decide)
                · rw [if_neg g8] at h
                  by_cases g9 : (k == "birthday") = true
                  · rw [if_pos g9] at h
                    cases hc : _date_to_card st.card "bday" (some v)
                    · rw [hc] at h; exact Option.noConfusion h
                    · rw [hc] at h; injection h with h2; subst h2
                      exact date_to_card_get_ne st.card "bday" (some v) _ "fn" hc (by decide)
                  · rw [if_neg g9] at h
                    by_cases g10 : (k == "anniversary") = true
                    · rw [if_pos g10] at h
                      cases hc : _kv_to_card st.card "anniversary" (some v)
                      · rw [hc] at h; exact Option.noConfusion h
                      · rw [hc] at h; injection h with h2; subst h2
                        exact kv_to_card_get_ne st.card "anniversary" (some v) _ "fn" hc (by decide)
                    · rw [if_neg g10] at h
                      by_cases g11 : (k == "company") = true
                      · rw [if_pos g11] at h
                        cases hc : json_string_value v
                        · rw [hc] at h; exact Option.noConfusion h
                        · rw [hc] at h; injection h with h2; subst h2
                          exact get_entry_cardMultiSet_ne st.card "org" 0 _ "fn" (by decide)
                      · rw [if_neg g11] at h
                        by_cases g12 : (k == "department") = true
                        · rw [if_pos g12] at h
                          cases hc : json_string_value v
                          · rw [hc] at h; exact Option.noConfusion h
                          · rw [hc] at h; injection h with h2; subst h2
                            exact get_entry_cardMultiSet_ne st.card "org" 1 _ "fn" (by decide)
                        · rw [if_neg g12] at h
                          by_cases g13 : (k == "jobTitle") = true
                          · rw [if_pos g13] at h
                            cases hc : json_string_value v
                            · rw [hc] at h; exact Option.noConfusion h
                            · rw [hc] at h; injection h with h2; subst h2
                              exact get_entry_cardMultiSet_ne st.card "org" 2 _ "fn" (by decide)
                          · rw [if_neg g13] at h
                            by_cases g14 : (k == "emails") = true
                            · rw [if_pos g14] at h
                              cases hc : _emails_to_card st.card v
                              · rw [hc] at h; exact Option.noConfusion h
                              · rw [hc] at h; injection h with h2; subst h2
                                exact emails_to_card_get_ne st.card v _ hc
                            · rw [if_neg g14] at h
                              by_cases g15 : (k == "phones") = true
                              · rw [if_pos g15] at h
                                cases hc : _phones_to_card st.card v
                                · rw [hc] at h; exact Option.noConfusion h
                                · rw [hc] at h; injection h with h2; subst h2
                                  exact phones_to_card_get_ne st.card v _ hc
                              · rw [if_neg g15] at h
                                by_cases g16 : (k == "online") = true
                                · rw [if_pos g16] at h
                                  cases hc : _online_to_card st.card v
                                  · rw [hc] at h; exact Option.noConfusion h
                                  · rw [hc] at h; injection h with h2; subst h2
                                    exact online_to_card_get_ne st.card v _ hc
                                · rw [if_neg g16] at h
                                  by_cases g17 : (k == "addresses") = true
                                  · rw [if_pos g17] at h
                                    cases hc : _addresses_to_card st.card v
                                    · rw [hc] at h; exact Option.noConfusion h
                                    · rw [hc] at h; injection h with h2; subst h2
                                      exact addresses_to_card_get_ne st.card v _ hc
                                  · rw [if_neg g17] at h
                                    by_cases g18 : (k == "notes") = true
                                    · rw [if_pos g18] at h
                                      cases hc : _kv_to_card st.card "note" (some v)
                                      · rw [hc] at h; exact Option.noConfusion h
                                      · rw [hc] at h; injection h with h2; subst h2
                                        exact kv_to_card_get_ne st.card "note" (some v) _ "fn" hc (by decide)
                                    · rw [if_neg g18] at h
                                      exact Option.noConfusion h

theorem j2cLoop_get_fn_eq (kvs : List (String × JVal)) (st stF : J2CState)
    (h : j2cLoop st kvs = some stF) :
    vparse_get_entry stF.card "fn" = vparse_get_entry st.card "fn" := by
  induction kvs generalizing st with
  | nil =>
      injection h with h2
      subst h2
      rfl
  | cons kv rest ih =>
      obtain ⟨k, v⟩ := kv
      unfold j2cLoop at h
      cases hk : j2cKey st k v with
      | none => rw [hk] at h; exact Option.noConfusion h
      | some st2 =>
          rw [hk] at h
          rw [ih st2 h]
          exact j2cKey_get_fn_eq st k v st2 hk

set_option maxHeartbeats 1600000 in
theorem j2cKey_nameDirty_mono (st : J2CState) (k : String) (v : JVal)
    (st2 : J2CState) (h : j2cKey st k v = some st2)
    (hd : st.nameDirty = true) : st2.nameDirty = true := by
  unfold j2cKey at h
  by_cases g1 : (k == "isFlagged") = true
  · rw [if_pos g1] at h
    injection h with h2
    subst h2
    exact hd
  · rw [if_neg g1] at h
    by_cases g2 : (k == "x-importance") = true
    · rw [if_pos g2] at h
      simp only [] at h
      injection h with h2
      subst h2
      exact hd
    · rw [if_neg g2] at h
      by_cases g3 : (k == "avatar") = true
      · rw [if_pos g3] at h
        injection h with h2
        subst h2
        exact hd
      · rw [if_neg g3] at h
        by_cases g4 : (k == "prefix") = true
        · rw [if_pos g4] at h
          cases hc : json_string_value v
          · rw [hc] at h; exact Option.noConfusion h
          · rw [hc] at h; injection h with h2; subst h2
            first | rfl | exact hd
        · rw [if_neg g4] at h
          by_cases g5 : (k == "firstName") = true
          · rw [if_pos g5] at h
            cases hc : json_string_value v
            · rw [hc] at h; exact Option.noConfusion h
            · rw [hc] at h; injection h with h2; subst h2
              first | rfl | exact hd
          · rw [if_neg g5] at h
            by_cases g6 : (k == "lastName") = true
            · rw [if_pos g6] at h
              cases hc : json_string_value v
              · rw [hc] at h; exact Option.noConfusion h
              · rw [hc] at h; injection h with h2; subst h2
                first | rfl | exact hd
            · rw [if_neg g6] at h
              by_cases g7 : (k == "suffix") = true
              · rw [if_pos g7] at h
                cases hc : json_string_value v
                · rw [hc] at h; exact Option.noConfusion h
                · rw [hc] at h; injection h with h2; subst h2
                  first | rfl | exact hd
              · rw [if_neg g7] at h
                by_cases g8 : (k == "nickname") = true
                · rw [if_pos g8] at h
                  cases hc : _kv_to_card st.card "nickname" (some v)
                  · rw [hc] at h; exact Option.noConfusion h
                  · rw [hc] at h; injection h with h2; subst h2
                    first | rfl | exact hd
                · rw [if_neg g8] at h
                  by_cases g9 : (k == "birthday") = true
                  · rw [if_pos g9] at h
                    cases hc : _date_to_card st.card "bday" (some v)
                    · rw [hc] at h; exact Option.noConfusion h
                    · rw [hc] at h; injection h with h2; subst h2
                      first | rfl | exact hd
                  · rw [if_neg g9] at h
                    by_cases g10 : (k == "anniversary") = true
                    · rw [if_pos g10] at h
                      cases hc : _kv_to_card st.card "anniversary" (some v)
                      · rw [hc] at h; exact Option.noConfusion h
                      · rw [hc] at h; injection h with h2; subst h2
                        first | rfl | exact hd
                    · rw [if_neg g10] at h
                      by_cases g11 : (k == "company") = true
                      · rw [if_pos g11] at h
                        cases hc : json_string_value v
                        · rw [hc] at h; exact Option.noConfusion h
                        · rw [hc] at h; injection h with h2; subst h2
                          first | rfl | exact hd
                      · rw [if_neg g11] at h
                        by_cases g12 : (k == "department") = true
                        · rw [if_pos g12] at h
                          cases hc : json_string_value v
                          · rw [hc] at h; exact Option.noConfusion h
                          · rw [hc] at h; injection h with h2; subst h2
                            first | rfl | exact hd
                        · rw [if_neg g12] at h
                          by_cases g13 : (k == "jobTitle") = true
                          · rw [if_pos g13] at h
                            cases hc : json_string_value v
                            · rw [hc] at h; exact Option.noConfusion h
                            · rw [hc] at h; injection h with h2; subst h2
                              first | rfl | exact hd
                          · rw [if_neg g13] at h
                            by_cases g14 : (k == "emails") = true
                            · rw [if_pos g14] at h
                              cases hc : _emails_to_card st.card v
                              · rw [hc] at h; exact Option.noConfusion h
                              · rw [hc] at h; injection h with h2; subst h2
                                first | rfl | exact hd
                            · rw [if_neg g14] at h
                              by_cases g15 : (k == "phones") = true
                              · rw [if_pos g15] at h
                                cases hc : _phones_to_card st.card v
                                · rw [hc] at h; exact Option.noConfusion h
                                · rw [hc] at h; injection h with h2; subst h2
                                  first | rfl | exact hd
                              · rw [if_neg g15] at h
                                by_cases g16 : (k == "online") = true
                                · rw [if_pos g16] at h
                                  cases hc : _online_to_card st.card v
                                  · rw [hc] at h; exact Option.noConfusion h
                                  · rw [hc] at h; injection h with h2; subst h2
                                    first | rfl | exact hd
                                · rw [if_neg g16] at h
                                  by_cases g17 : (k == "addresses") = true
                                  · rw [if_pos g17] at h
                                    cases hc : _addresses_to_card st.card v
                                    · rw [hc] at h; exact Option.noConfusion h
                                    · rw [hc] at h; injection h with h2; subst h2
                                      first | rfl | exact hd
                                  · rw [if_neg g17] at h
                                    by_cases g18 : (k == "notes") = true
                                    · rw [if_pos g18] at h
                                      cases hc : _kv_to_card st.card "note" (some v)
                                      · rw [hc] at h; exact Option.noConfusion h
                                      · rw [hc] at h; injection h with h2; subst h2
                                        first | rfl | exact hd
                                    · rw [if_neg g18] at h
                                      exact Option.noConfusion h

theorem j2cKey_name_sets (st : J2CState) (k : String) (v : JVal)
    (st2 : J2CState) (h : j2cKey st k v = some st2)
    (hk : k = "prefix" ∨ k = "firstName" ∨ k = "lastName" ∨ k = "suffix") :
    st2.nameDirty = true := by
  rcases hk with rfl | rfl | rfl | rfl
  · -- prefix
    have e1 : (("prefix" : String) == "isFlagged") = false := by decide
    have e2 : (("prefix" : String) == "x-importance") = false := by decide
    have e3 : (("prefix" : String) == "avatar") = false := by decide
    have et : (("prefix" : String) == "prefix") = true := by decide
    unfold j2cKey at h
    simp only [e1, e2, e3, et] at h
    simp only [Bool.false_eq_true, if_false, if_true] at h
    cases hv : json_string_value v
    · rw [hv] at h; exact Option.noConfusion h
    · rw [hv] at h; injection h with h2; subst h2; rfl
  · -- firstName
    have e1 : (("firstName" : String) == "isFlagged") = false := by decide
    have e2 : (("firstName" : String) == "x-importance") = false := by decide
    have e3 : (("firstName" : String) == "avatar") = false := by decide
    have e4 : (("firstName" : String) == "prefix") = false := by decide
    have et : (("firstName" : String) == "firstName") = true := by decide
    unfold j2cKey at h
    simp only [e1, e2, e3, e4, et] at h
    simp only [Bool.false_eq_true, if_false, if_true] at h
    cases hv : json_string_value v
    · rw [hv] at h; exact Option.noConfusion h
    · rw [hv] at h; injection h with h2; subst h2; rfl
  · -- lastName
    have e1 : (("lastName" : String) == "isFlagged") = false := by decide
    have e2 : (("lastName" : String) == "x-importance") = false := by decide
    have e3 : (("lastName" : String) == "avatar") = false := by decide
    have e4 : (("lastName" : String) == "prefix") = false := by decide
    have e5 : (("lastName" : String) == "firstName") = false := by decide
    have et : (("lastName" : String) == "lastName") = true := by decide
    unfold j2cKey at h
    simp only [e1, e2, e3, e4, e5, et] at h
    simp only [Bool.false_eq_true, if_false, if_true] at h
    cases hv : json_string_value v
    · rw [hv] at h; exact Option.noConfusion h
    · rw [hv] at h; injection h with h2; subst h2; rfl
  · -- suffix
    have e1 : (("suffix" : String) == "isFlagged") = false := by decide
    have e2 : (("suffix" : String) == "x-importance") = false := by decide
    have e3 : (("suffix" : String) == "avatar") = false := by decide
    have e4 : (("suffix" : String) == "prefix") = false := by decide
    have e5 : (("suffix" : String) == "firstName") = false := by decide
    have e6 : (("suffix" : String) == "lastName") = false := by decide
    have et : (("suffix" : String) == "suffix") = true := by decide
    unfold j2cKey at h
    simp only [e1, e2, e3, e4, e5, e6, et] at h
    simp only [Bool.false_eq_true, if_false, if_true] at h
    cases hv : json_string_value v
    · rw [hv] at h; exact Option.noConfusion h
    · rw [hv] at h; injection h with h2; subst h2; rfl

theorem j2cLoop_nameDirty_mono (kvs : List (String × JVal))
    (st stF : J2CState) (h : j2cLoop st kvs = some stF)
    (hd : st.nameDirty = true) : stF.nameDirty = true := by
  induction kvs generalizing st with
  | nil =>
      injection h with h2
      subst h2
      exact hd
  | cons kv rest ih =>
      obtain ⟨k, v⟩ := kv
      unfold j2cLoop at h
      cases hk : j2cKey st k v with
      | none => rw [hk] at h; exact Option.noConfusion h
      | some st2 =>
          rw [hk] at h
          exact ih st2 h (j2cKey_nameDirty_mono st k v st2 hk hd)

theorem j2cLoop_name_dirty (kvs : List (String × JVal))
    (st stF : J2CState) (k : String) (v : JVal)
    (h : j2cLoop st kvs = some stF) (hmem : (k, v) ∈ kvs)
    (hk : k = "prefix" ∨ k = "firstName" ∨ k = "lastName" ∨ k = "suffix") :
    stF.nameDirty = true := by
  induction kvs generalizing st with
  | nil => simp at hmem
  | cons kv rest ih =>
      obtain ⟨k0, v0⟩ := kv
      unfold j2cLoop at h
      cases hj : j2cKey st k0 v0 with
      | none => rw [hj] at h; exact Option.noConfusion h
      | some st2 =>
          rw [hj] at h
          rcases List.mem_cons.mp hmem with heq | hmem2
          · injection heq with hk0 hv0
            exact j2cLoop_nameDirty_mono rest st2 stF h
              (j2cKey_name_sets st k0 v0 st2 hj (hk0 ▸ hk))
          · exact ih st2 h hmem2

/-- C6 (amended): a successful _json_to_card run whose argument touches
one of the structured-name keys (prefix, firstName, lastName, suffix)
leaves the card with an FN property equal to the formula
"prefix firstName lastName suffix" over the non-empty components (with
the nickname/email/"No Name" fallbacks), i.e. FN is recomputed by
_make_fn.  (The unamended claim also asserted recomputation after a
nickname-only update, which is refuted by json_to_card_nickname_cex:
nickname sets record_is_dirty but not name_is_dirty.) -/
theorem json_to_card_fn_spec (card : VCard) (arg : JVal)
    (flags : List String) (annots : List (String × Int))
    (k : String) (v : JVal)
    (hmem : (k, v) ∈ jobjKVs arg)
    (hk : k = "prefix" ∨ k = "firstName" ∨ k = "lastName" ∨ k = "suffix")
    (hok : (_json_to_card card arg flags annots).1 = J2CCode.ok) :
    vparse_stringval (_json_to_card card arg flags annots).2.1 "fn"
      = some (claimFn (_json_to_card card arg flags annots).2.1) := by
  unfold _json_to_card at hok ⊢
  simp only [] at hok ⊢
  cases hloop : j2cLoop
      ⟨(match vparse_get_entry card "fn" with
          | some _ => (card, false)
          | none =>
              (vparse_add_entry card ⟨"fn", [], VValue.single "No Name"⟩,
                true)).1,
        flags, annots,
        (match vparse_get_entry card "fn" with
          | some _ => (card, false)
          | none =>
              (vparse_add_entry card ⟨"fn", [], VValue.single "No Name"⟩,
                true)).2,
        false⟩ (jobjKVs arg) with
  | none =>
      rw [hloop] at hok
      exact J2CCode.noConfusion hok
  | some st =>
      have hd : st.nameDirty = true :=
        j2cLoop_name_dirty (jobjKVs arg) _ st k v hloop hmem hk
      simp only [hd, eq_self_iff_true, if_true]
      rw [make_fn_spec, claimFn_make_fn]

theorem json_to_card_fn_spec_witness :
    (("firstName", JVal.str "Ann") ∈
        jobjKVs (JVal.obj [("firstName", JVal.str "Ann")])) ∧
    vparse_stringval (_json_to_card ⟨[⟨"fn", [], .single "Old"⟩]⟩
        (JVal.obj [("firstName", JVal.str "Ann")]) [] []).2.1 "fn"
      = some (claimFn (_json_to_card ⟨[⟨"fn", [], .single "Old"⟩]⟩
        (JVal.obj [("firstName", JVal.str "Ann")]) [] []).2.1) :=
  ⟨List.mem_singleton.mpr rfl,
   json_to_card_fn_spec ⟨[⟨"fn", [], .single "Old"⟩]⟩
     (JVal.obj [("firstName", JVal.str "Ann")]) [] []
     "firstName" (JVal.str "Ann")
     (List.mem_singleton.mpr rfl) (Or.inr (Or.inl rfl)) rfl⟩

theorem needMark_lookup_ne (nd : List (String × Nat)) (u k : String)
    (v : Nat) (h : u ≠ k) :
    needLookup (needMark nd u v) k = needLookup nd k := by
  induction nd with
  | nil =>
      have hb : (u == k) = false := by
        cases hbe : u == k
        · rfl
        · exact absurd (eq_of_beq hbe) h
      simp [needMark, needLookup, List.find?, hb]
  | cons p rest ih =>
      obtain ⟨k0, v0⟩ := p
      unfold needMark
      by_cases h0 : (k0 == u) = true
      · rw [if_pos h0]
        have hk0 : (k0 == k) = false := by
          cases hbe : k0 == k
          · rfl
          · exact absurd ((eq_of_beq h0).symm.trans (eq_of_beq hbe)) h
        simp [needLookup, List.find?, hk0]
      · rw [if_neg h0]
        cases hbe : k0 == k
        · simpa [needLookup, List.find?, hbe] using ih
        · simp [needLookup, List.find?, hbe]

theorem getCardsFold_need_miss (entry : Msg → JVal) (msgs : List Msg)
    (nd : List (String × Nat)) (arr : List JVal) (k : String)
    (hmiss : ∀ m ∈ msgs, msgUid m ≠ k) :
    ∃ nd2, (getCardsFold entry ⟨some nd, arr⟩ msgs).need = some nd2 ∧
      needLookup nd2 k = needLookup nd k := by
  induction msgs generalizing nd arr with
  | nil => exact ⟨nd, rfl, rfl⟩
  | cons m rest ih =>
      unfold getCardsFold
      simp only []
      cases hl : needLookup nd (msgUid m) with
      | none =>
          exact ih nd arr
            (fun m2 hm2 => hmiss m2 (List.mem_cons_of_mem m hm2))
      | some w =>
          obtain ⟨nd2, h1, h2⟩ := ih (needMark nd (msgUid m) 2)
            (arr ++ [entry m])
            (fun m2 hm2 => hmiss m2 (List.mem_cons_of_mem m hm2))
          refine ⟨nd2, h1, ?_⟩
          rw [h2, needMark_lookup_ne]
          exact hmiss m (List.mem_cons_self m rest)

theorem needLookup_one_notFound (nd : List (String × Nat)) (k : String)
    (h : needLookup nd k = some 1) : k ∈ needNotFound nd := by
  unfold needLookup at h
  cases hf : List.find? (fun p => p.1 == k) nd with
  | none => rw [hf] at h; exact Option.noConfusion h
  | some p =>
      rw [hf] at h
      injection h with h2
      have hpk : (p.1 == k) = true := by
        have hs := List.find?_some hf
        simpa using hs
      have hmem : p ∈ nd := List.mem_of_find?_eq_some hf
      unfold needNotFound
      apply List.mem_map.mpr
      refine ⟨p, List.mem_filter.mpr ⟨hmem, ?_⟩, eq_of_beq hpk⟩
      simp [h2]

/-- C1 (amended): getContactGroups never consults the batch idmap: its
result on any context equals its result with the idmap emptied, and a
requested id carried by no live group card of the addressbook — in
particular an id that is only a creation key bound by an earlier
setContactGroups of the batch — is reported in notFound instead of
being resolved to the created group. -/
theorem getContactGroups_unresolved_id (ctx : Ctx) (st : Store)
    (want : JVal) (nd : List (String × Nat)) (k : String)
    (hids : json_object_get ctx.args "ids" = some want)
    (hinit : needInitLoop [] (jarrElems want) = some nd)
    (hwant : needLookup nd k = some 1)
    (hmiss : ∀ m ∈ carddav_get_cards st
        (mboxname_abook ctx.userid
          (((json_object_get ctx.args "addressbookId").bind
              json_string_value).getD "Default"))
        CARDDAV_KIND_GROUP, msgUid m ≠ k) :
    getContactGroups ctx st
      = getContactGroups ⟨ctx.userid, ctx.state, ctx.tag, ctx.args, []⟩ st ∧
    ∃ nf : List String, k ∈ nf ∧
      payloadGet (getContactGroups ctx st).1 "notFound"
        = some (.arr (nf.map .str)) := by
  refine ⟨rfl, ?_⟩
  unfold getContactGroups
  simp only []
  rw [hids]
  simp only []
  rw [hinit]
  simp only []
  obtain ⟨nd2, hne, hlk⟩ := getCardsFold_need_miss
    (getgroups_entry ctx.userid
      ((mboxname_abook ctx.userid
          (((json_object_get ctx.args "addressbookId").bind
              json_string_value).getD "Default")).length
        - (((json_object_get ctx.args "addressbookId").bind
              json_string_value).getD "Default").length))
    (carddav_get_cards st
      (mboxname_abook ctx.userid
        (((json_object_get ctx.args "addressbookId").bind
            json_string_value).getD "Default"))
      CARDDAV_KIND_GROUP) nd [] k hmiss
  have hk2 : k ∈ needNotFound nd2 :=
    needLookup_one_notFound nd2 k (hlk.trans hwant)
  refine ⟨needNotFound nd2, hk2, ?_⟩
  rw [hne]
  have hemp : (needNotFound nd2).isEmpty = false := by
    cases hx : needNotFound nd2 with
    | nil => rw [hx] at hk2; simp at hk2
    | cons a l => rfl
  simp [payloadGet, json_object_get, jlookup, notFoundField, hemp]

/-- C1 counterexample: in the batch of the claim (setContactGroups
creating g1 with name Friends on an empty store, then getContactGroups
with ids [g1]), the creation succeeds, mints uuid-0 and binds g1 to it
in the idmap, but the later getContactGroups does not resolve g1
through the idmap: its list is empty and notFound is [g1], refuting
the claimed resolution. -/
theorem getContactGroups_idmap_cex :
    (setContactGroups ⟨"user", "0", "a",
        .obj [("create", .obj [("g1", .obj [("name", .str "Friends")])])],
        []⟩ ⟨[], 1, 0, 1⟩).2.2.1 = [("g1", "uuid-0")] ∧
    payloadGet (setContactGroups ⟨"user", "0", "a",
        .obj [("create", .obj [("g1", .obj [("name", .str "Friends")])])],
        []⟩ ⟨[], 1, 0, 1⟩).1 "created"
      = some (.obj [("g1", .obj [("id", .str "uuid-0")])]) ∧
    payloadGet (getContactGroups ⟨"user", "0", "b",
        .obj [("ids", .arr [.str "g1"])],
        (setContactGroups ⟨"user", "0", "a",
            .obj [("create",
              .obj [("g1", .obj [("name", .str "Friends")])])],
            []⟩ ⟨[], 1, 0, 1⟩).2.2.1⟩
        (setContactGroups ⟨"user", "0", "a",
            .obj [("create",
              .obj [("g1", .obj [("name", .str "Friends")])])],
            []⟩ ⟨[], 1, 0, 1⟩).2.1).1 "list" = some (.arr []) ∧
    payloadGet (getContactGroups ⟨"user", "0", "b",
        .obj [("ids", .arr [.str "g1"])],
        (setContactGroups ⟨"user", "0", "a",
            .obj [("create",
              .obj [("g1", .obj [("name", .str "Friends")])])],
            []⟩ ⟨[], 1, 0, 1⟩).2.2.1⟩
        (setContactGroups ⟨"user", "0", "a",
            .obj [("create",
              .obj [("g1", .obj [("name", .str "Friends")])])],
            []⟩ ⟨[], 1, 0, 1⟩).2.1).1 "notFound"
      = some (.arr [.str "g1"]) :=
  ⟨rfl, rfl, rfl, rfl⟩

theorem getContactGroups_unresolved_id_witness :
    ∃ nf : List String, "g1" ∈ nf ∧
      payloadGet (getContactGroups ⟨"user", "0", "b",
          .obj [("ids", .arr [.str "g1"])], [("g1", "uuid-0")]⟩
          ⟨[⟨"user.user.#addressbooks.Default", 1, "uuid-0.vcf",
              ⟨[⟨"version", [], .single "3.0"⟩,
                ⟨"fn", [], .single "Friends"⟩,
                ⟨"uid", [], .single "uuid-0"⟩,
                ⟨"x-addressbookserver-kind", [], .single "group"⟩]⟩,
              [], [], false, false⟩], 2, 1, 2⟩).1 "notFound"
        = some (.arr (nf.map .str)) :=
  (getContactGroups_unresolved_id
    ⟨"user", "0", "b", .obj [("ids", .arr [.str "g1"])],
      [("g1", "uuid-0")]⟩
    ⟨[⟨"user.user.#addressbooks.Default", 1, "uuid-0.vcf",
        ⟨[⟨"version", [], .single "3.0"⟩,
          ⟨"fn", [], .single "Friends"⟩,
          ⟨"uid", [], .single "uuid-0"⟩,
          ⟨"x-addressbookserver-kind", [], .single "group"⟩]⟩,
        [], [], false, false⟩], 2, 1, 2⟩
    (.arr [.str "g1"]) [("g1", 1)] "g1" rfl rfl rfl (by decide)).2

theorem beqStr_comm (a b : String) : (a == b) = (b == a) := by
  by_cases h : a = b
  · subst h; rfl
  · rw [beq_eq_false_iff_ne.mpr h, beq_eq_false_iff_ne.mpr (Ne.symm h)]

theorem map_keep_of_all (f : String × Nat → String × Nat)
    (l : List (String × Nat)) (h : ∀ p ∈ l, f p = p) : l.map f = l := by
  induction l with
  | nil => rfl
  | cons a r ih =>
      rw [List.map_cons, h a (List.mem_cons_self a r),
        ih (fun p hp => h p (List.mem_cons_of_mem a hp))]

theorem getCardsFold_need_none (entry : Msg → JVal) (msgs : List Msg)
    (arr : List JVal) :
    (getCardsFold entry ⟨none, arr⟩ msgs).need = none := by
  induction msgs generalizing arr with
  | nil => rfl
  | cons m rest ih => exact ih (arr ++ [entry m])

theorem needMark_mem_key (nd : List (String × Nat)) (k : String)
    (v : Nat) (a : String)
    (h : a ∈ (needMark nd k v).map (fun p => p.1)) :
    a ∈ nd.map (fun p => p.1) ∨ a = k := by
  induction nd with
  | nil => exact Or.inr (List.mem_singleton.mp h)
  | cons q rest ih =>
      obtain ⟨k0, v0⟩ := q
      unfold needMark at h
      by_cases h0 : (k0 == k) = true
      · rw [if_pos h0] at h
        rw [List.map_cons] at h ⊢
        rcases List.mem_cons.mp h with he | hm
        · exact Or.inl (List.mem_cons.mpr (Or.inl he))
        · exact Or.inl (List.mem_cons.mpr (Or.inr hm))
      · rw [if_neg h0] at h
        rw [List.map_cons] at h ⊢
        rcases List.mem_cons.mp h with he | hm
        · exact Or.inl (List.mem_cons.mpr (Or.inl he))
        · rcases ih hm with h2 | h2
          · exact Or.inl (List.mem_cons.mpr (Or.inr h2))
          · exact Or.inr h2

theorem needMark_keys_nodup (nd : List (String × Nat)) (k : String)
    (v : Nat) (h : (nd.map (fun p => p.1)).Nodup) :
    ((needMark nd k v).map (fun p => p.1)).Nodup := by
  induction nd with
  | nil => simp [needMark]
  | cons q rest ih =>
      obtain ⟨k0, v0⟩ := q
      rw [List.map_cons, List.nodup_cons] at h
      unfold needMark
      by_cases h0 : (k0 == k) = true
      · rw [if_pos h0]
        rw [List.map_cons, List.nodup_cons]
        exact ⟨h.1, h.2⟩
      · rw [if_neg h0]
        rw [List.map_cons, List.nodup_cons]
        refine ⟨?_, ih h.2⟩
        intro hmem
        rcases needMark_mem_key rest k v k0 hmem with h2 | h2
        · exact h.1 h2
        · exact h0 (beq_iff_eq.mpr h2)

theorem needMark_all_val (nd : List (String × Nat)) (k : String)
    (w : Nat) (h : ∀ p ∈ nd, p.2 = w) :
    ∀ p ∈ needMark nd k w, p.2 = w := by
  induction nd with
  | nil =>
      intro p hp
      rw [List.mem_singleton.mp hp]
  | cons q rest ih =>
      obtain ⟨k0, v0⟩ := q
      unfold needMark
      by_cases h0 : (k0 == k) = true
      · rw [if_pos h0]
        intro p hp
        rcases List.mem_cons.mp hp with he | hm
        · rw [he]
        · exact h p (List.mem_cons_of_mem _ hm)
      · rw [if_neg h0]
        intro p hp
        rcases List.mem_cons.mp hp with he | hm
        · rw [he]; exact h (k0, v0) (List.mem_cons_self _ _)
        · exact ih (fun q2 hq2 => h q2 (List.mem_cons_of_mem _ hq2)) p hm

theorem needInitLoop_inv (l : List JVal) (acc nd : List (String × Nat))
    (h : needInitLoop acc l = some nd)
    (hnodup : (acc.map (fun p => p.1)).Nodup)
    (hval : ∀ p ∈ acc, p.2 = 1) :
    (nd.map (fun p => p.1)).Nodup ∧ ∀ p ∈ nd, p.2 = 1 := by
  induction l generalizing acc with
  | nil =>
      injection h with h2
      subst h2
      exact ⟨hnodup, hval⟩
  | cons item rest ih =>
      unfold needInitLoop at h
      cases hv : json_string_value item with
      | none => rw [hv] at h; exact Option.noConfusion h
      | some id =>
          rw [hv] at h
          exact ih (needMark acc id 1) h
            (needMark_keys_nodup acc id 1 hnodup)
            (needMark_all_val acc id 1 hval)

theorem needMark_map_of_lookup (nd : List (String × Nat)) (u : String)
    (v w0 : Nat) (h : needLookup nd u = some w0)
    (hnodup : (nd.map (fun p => p.1)).Nodup) :
    needMark nd u v
      = nd.map (fun p => if p.1 == u then (p.1, v) else p) := by
  induction nd with
  | nil => exact Option.noConfusion h
  | cons q rest ih =>
      obtain ⟨k0, v0⟩ := q
      rw [List.map_cons, List.nodup_cons] at hnodup
      unfold needMark
      by_cases h0 : (k0 == u) = true
      · rw [if_pos h0, List.map_cons]
        have hkeep : ∀ q2 ∈ rest,
            (if q2.1 == u then (q2.1, v) else q2) = q2 := by
          intro q2 hq2
          have hqne : (q2.1 == u) = false := by
            cases hb : q2.1 == u
            · rfl
            · exfalso
              apply hnodup.1
              rw [show k0 = q2.1 from
                (eq_of_beq h0).trans (eq_of_beq hb).symm]
              exact List.mem_map_of_mem (fun p => p.1) hq2
          simp [hqne]
        rw [map_keep_of_all _ rest hkeep]
        congr 1
        simp [h0]
      · have h0f : (k0 == u) = false := by
          cases hb : k0 == u
          · rfl
          · exact absurd hb h0
        rw [if_neg h0, List.map_cons]
        have h2 : needLookup rest u = some w0 := by
          unfold needLookup at h ⊢
          rw [List.find?_cons_of_neg] at h
          · exact h
          · simp [h0f]
        rw [ih h2 hnodup.2]
        congr 1
        simp [h0f]

theorem getCardsFold_marks (entry : Msg → JVal) (msgs : List Msg)
    (nd : List (String × Nat)) (arr : List JVal)
    (hnodup : (nd.map (fun p => p.1)).Nodup) :
    (getCardsFold entry ⟨some nd, arr⟩ msgs).need
      = some (nd.map (fun p =>
          if msgs.any (fun m => msgUid m == p.1) then (p.1, 2) else p))
    := by
  induction msgs generalizing nd arr with
  | nil =>
      show some nd = _
      rw [map_keep_of_all _ nd (fun p hp => by simp)]
  | cons m rest ih =>
      cases hl : needLookup nd (msgUid m) with
      | none =>
          have hstep : getCardsFold entry ⟨some nd, arr⟩ (m :: rest)
              = getCardsFold entry ⟨some nd, arr⟩ rest := by
            rw [getCardsFold]
            simp only []
            rw [hl]
          rw [hstep, ih nd arr hnodup]
          have hfind : List.find? (fun q => q.1 == msgUid m) nd = none := by
            unfold needLookup at hl
            exact Option.map_eq_none'.mp hl
          have hall := List.find?_eq_none.mp hfind
          congr 1
          apply List.map_congr_left
          intro p hp
          have hne : (msgUid m == p.1) = false := by
            cases hb : msgUid m == p.1
            · rfl
            · exfalso
              exact hall p hp (by rw [beqStr_comm]; exact hb)
          simp [List.any_cons, hne]
      | some w =>
          have hstep : getCardsFold entry ⟨some nd, arr⟩ (m :: rest)
              = getCardsFold entry
                  ⟨some (needMark nd (msgUid m) 2), arr ++ [entry m]⟩
                  rest := by
            rw [getCardsFold]
            simp only []
            rw [hl]
          rw [hstep, ih _ _ (needMark_keys_nodup nd (msgUid m) 2 hnodup)]
          rw [needMark_map_of_lookup nd (msgUid m) 2 w hl hnodup]
          rw [List.map_map]
          congr 1
          apply List.map_congr_left
          intro p hp
          simp only [Function.comp]
          by_cases hb : (p.1 == msgUid m) = true
          · rw [if_pos hb]
            have hb2 : (msgUid m == p.1) = true := by
              rw [beqStr_comm]; exact hb
            simp [List.any_cons, hb2]
          · have hbf : (p.1 == msgUid m) = false := by
              cases hx : p.1 == msgUid m
              · rfl
              · exact absurd hx hb
            rw [if_neg hb]
            have hb2 : (msgUid m == p.1) = false := by
              rw [beqStr_comm]; exact hbf
            simp [List.any_cons, hb2]

theorem needNotFound_marks (nd : List (String × Nat)) (rows : List Msg)
    (hval : ∀ p ∈ nd, p.2 = 1) :
    needNotFound (nd.map (fun p =>
        if rows.any (fun m => msgUid m == p.1) then (p.1, 2) else p))
      = missingIds nd rows := by
  induction nd with
  | nil => rfl
  | cons p rest ih =>
      have hv : p.2 = 1 := hval p (List.mem_cons_self _ _)
      have ih2 := ih (fun q hq => hval q (List.mem_cons_of_mem _ hq))
      by_cases ha : (rows.any (fun m => msgUid m == p.1)) = true
      · simp only [List.map_cons, if_pos ha]
        simp [needNotFound, missingIds, List.filter_cons, ha] at ih2 ⊢
        exact ih2
      · have haf : (rows.any (fun m => msgUid m == p.1)) = false := by
          cases hx : rows.any (fun m => msgUid m == p.1)
          · rfl
          · exact absurd hx ha
        simp only [List.map_cons, if_neg ha]
        simp [needNotFound, missingIds, List.filter_cons, haf, hv]
          at ih2 ⊢
        exact ih2

/-- C10: in getContacts and getContactGroups responses, notFound is
JSON null whenever no requested id is missing — both when the ids
argument is absent and when every listed id was seen during the
enumeration — and otherwise it is the (non-empty, by construction of
notFoundOf) array of the requested ids never seen. -/
theorem get_notFound_spec (ctx : Ctx) (st : Store)
    (want : JVal) (nd : List (String × Nat)) :
    (json_object_get ctx.args "ids" = none →
       payloadGet (getContactGroups ctx st).1 "notFound" = some .null ∧
       ((getContacts ctx st).2 = 0 →
         payloadGet (getContacts ctx st).1 "notFound" = some .null)) ∧
    (json_object_get ctx.args "ids" = some want →
     needInitLoop [] (jarrElems want) = some nd →
     (payloadGet (getContactGroups ctx st).1 "notFound"
        = some (notFoundOf nd (carddav_get_cards st
            (mboxname_abook ctx.userid (abookOf ctx.args))
            CARDDAV_KIND_GROUP)) ∧
      ((getContacts ctx st).2 = 0 →
        payloadGet (getContacts ctx st).1 "notFound"
          = some (notFoundOf nd (carddav_get_cards st
              (mboxname_abook ctx.userid (abookOf ctx.args))
              CARDDAV_KIND_CONTACT))))) := by
  constructor
  · intro hids
    constructor
    · unfold getContactGroups
      simp only []
      rw [hids]
      simp only []
      rw [getCardsFold_need_none]
      simp [payloadGet, json_object_get, jlookup, notFoundField]
    · intro hret
      unfold getContacts at hret ⊢
      simp only [] at hret ⊢
      rw [hids] at hret ⊢
      simp only [] at hret ⊢
      cases hpg : json_object_get ctx.args "properties" with
      | none =>
          rw [hpg] at hret
          simp only [] at hret ⊢
          rw [getCardsFold_need_none]
          simp [payloadGet, json_object_get, jlookup, notFoundField]
      | some properties =>
          rw [hpg] at hret
          simp only [] at hret ⊢
          cases hpi : propsInitLoop [] (jarrElems properties) with
          | none =>
              rw [hpi] at hret
              simp only [] at hret
              exact absurd hret (by decide)
          | some ps =>
              rw [hpi] at hret
              simp only [] at hret ⊢
              rw [getCardsFold_need_none]
              simp [payloadGet, json_object_get, jlookup, notFoundField]
  · intro hids hinit
    obtain ⟨hnodup, hval⟩ := needInitLoop_inv (jarrElems want) [] nd hinit
      (by simp) (by simp)
    constructor
    · unfold getContactGroups
      simp only []
      rw [hids]
      simp only []
      rw [hinit]
      simp only []
      rw [getCardsFold_marks _ _ _ _ hnodup]
      rw [notFoundField]
      rw [needNotFound_marks nd _ hval]
      simp only [abookOf]
      simp [payloadGet, json_object_get, jlookup, notFoundOf]
    · intro hret
      unfold getContacts at hret ⊢
      simp only [] at hret ⊢
      rw [hids] at hret ⊢
      simp only [] at hret ⊢
      rw [hinit] at hret ⊢
      simp only [] at hret ⊢
      cases hpg : json_object_get ctx.args "properties" with
      | none =>
          rw [hpg] at hret
          simp only [] at hret ⊢
          rw [getCardsFold_marks _ _ _ _ hnodup]
          rw [notFoundField]
          rw [needNotFound_marks nd _ hval]
          simp only [abookOf]
          simp [payloadGet, json_object_get, jlookup, notFoundOf]
      | some properties =>
          rw [hpg] at hret
          simp only [] at hret ⊢
          cases hpi : propsInitLoop [] (jarrElems properties) with
          | none =>
              rw [hpi] at hret
              simp only [] at hret
              exact absurd hret (by decide)
          | some ps =>
              rw [hpi] at hret
              simp only [] at hret ⊢
              rw [getCardsFold_marks _ _ _ _ hnodup]
              rw [notFoundField]
              rw [needNotFound_marks nd _ hval]
              simp only [abookOf]
              simp [payloadGet, json_object_get, jlookup, notFoundOf]

theorem get_notFound_spec_witness :
    (payloadGet (getContactGroups ⟨"u", "0", "a", .obj [], []⟩
        ⟨[], 1, 0, 1⟩).1 "notFound" = some JVal.null ∧
     payloadGet (getContacts ⟨"u", "0", "a", .obj [], []⟩
        ⟨[], 1, 0, 1⟩).1 "notFound" = some JVal.null) ∧
    (payloadGet (getContactGroups ⟨"u", "0", "b",
        .obj [("ids", .arr [.str "z"])], []⟩ ⟨[], 1, 0, 1⟩).1 "notFound"
      = some (.arr [.str "z"]) ∧
     payloadGet (getContacts ⟨"u", "0", "b",
        .obj [("ids", .arr [.str "z"])], []⟩ ⟨[], 1, 0, 1⟩).1 "notFound"
      = some (.arr [.str "z"])) := by
  refine ⟨⟨?_, ?_⟩, ?_, ?_⟩
  · exact ((get_notFound_spec ⟨"u", "0", "a", .obj [], []⟩ ⟨[], 1, 0, 1⟩
      JVal.null []).1 rfl).1
  · exact ((get_notFound_spec ⟨"u", "0", "a", .obj [], []⟩ ⟨[], 1, 0, 1⟩
      JVal.null []).1 rfl).2 rfl
  · exact (((get_notFound_spec ⟨"u", "0", "b",
      .obj [("ids", .arr [.str "z"])], []⟩ ⟨[], 1, 0, 1⟩
      (.arr [.str "z"]) [("z", 1)]).2 rfl rfl).1).trans rfl
  · exact ((((get_notFound_spec ⟨"u", "0", "b",
      .obj [("ids", .arr [.str "z"])], []⟩ ⟨[], 1, 0, 1⟩
      (.arr [.str "z"]) [("z", 1)]).2 rfl rfl).2 rfl)).trans rfl

end Jmap
